import Mathlib

/-!
# kmsagnosticbin3.c : pad lifecycle of the agnostic connector

A shallow embedding of `src/gst-plugins/kmsagnosticbin3.c`.

Pointers are indices: a source ghost pad of the connector is its position in
the element's list of source pads, a sink ghost pad its position in the list of
sink pads, and an `agnosticbin` child its position in the list of children of
the bin.  Nothing is ever removed from those lists by this file
(`kms_agnostic_bin3_release_pad` is a stub), so an index is a stable identity.

What the environment decides is an explicit argument: the value returned by the
"caps" signal, whether `gst_ghost_pad_set_target` manages to link the target,
whether a source pad has a downstream peer, and the state of the element.
Locking (`GRecMutex`, `GMutex`) and the log lines (`GST_DEBUG_OBJECT`,
`GST_ERROR_OBJECT`) are not represented: every function here is one
uninterrupted call.  `gst_element_factory_make`, `gst_bin_add` and
`gst_element_add_pad` are taken to succeed, and the caps queries of the
UNCONFIGURED branch (lines 189-198), whose result only selects a log line, are
left out.
-/

namespace Kms

/-! ## Data model -/

/-- Media format descriptor (`GstCaps`), an uninterpreted value. -/
abbrev GstCaps := Nat

/-- The states of a GStreamer element, in the order of the C enumeration. -/
inductive GstState where
  | VOID_PENDING
  | NULL
  | READY
  | PAUSED
  | PLAYING
deriving DecidableEq, Repr

/-- Numeric value of a `GstState`. -/
def GstState.toNat : GstState → Nat
  | .VOID_PENDING => 0
  | .NULL => 1
  | .READY => 2
  | .PAUSED => 3
  | .PLAYING => 4

/-- The enumeration `KmsSrcPadState` (lines 60-66). -/
inductive KmsSrcPadState where
  | UNCONFIGURED
  | CONFIGURED
  | WAITING
  | LINKED
deriving DecidableEq, Repr

/-- The record `KmsSrcPadData` (lines 68-73), without its mutex. -/
structure KmsSrcPadData where
  state : KmsSrcPadState
  caps : Option GstCaps
deriving DecidableEq, Repr

/-- A request pad of an `agnosticbin` child: the child and the number the child
gave to the pad. -/
structure TranscoderPad where
  element : Nat
  pad : Nat
deriving DecidableEq, Repr

/-- A source ghost pad of the connector.  `target` is the ghost pad target,
`peer` is what `gst_pad_is_linked` answers, `data` is the object data stored
under the key `kms-agnosticbin3-src-pad-data`. -/
structure SrcGhostPad where
  name : String
  active : Bool
  target : Option TranscoderPad
  peer : Bool
  data : Option KmsSrcPadData
deriving DecidableEq, Repr

/-- A sink ghost pad of the connector.  `target` is the child whose static
pad "sink" the ghost pad proxies. -/
structure SinkGhostPad where
  name : String
  active : Bool
  target : Option Nat
deriving DecidableEq, Repr

/-- An `agnosticbin` child, seen through the two requests the connector makes
to it: the numbers of its live request pads and the next number it hands out. -/
structure AgnosticBin where
  pad_count : Nat
  srcpads : List Nat
deriving DecidableEq, Repr

/-- The element `KmsAgnosticBin3`: the private record (lines 43-50) together
with the parts of the `GstBin` and `GstElement` it extends that the file reads
or writes. -/
structure KmsAgnosticBin3 where
  agnosticbins : List Nat
  src_pad_count : Nat
  sink_pad_count : Nat
  cur_state : GstState
  pending_state : GstState
  target_state : GstState
  children : List AgnosticBin
  sinkpads : List SinkGhostPad
  srcpads : List SrcGhostPad
deriving DecidableEq, Repr

/-- The pad template handed to `request_new_pad`. -/
inductive PadTemplate where
  | sink
  | src
  | other
deriving DecidableEq, Repr

/-- A pad returned to the caller of `request_new_pad`. -/
inductive GstPadRef where
  | sink (i : Nat)
  | src (i : Nat)
deriving DecidableEq, Repr

/-- An event seen by the probe of a sink pad: a caps event (whose caps may be
NULL) or any other event. -/
inductive GstEvent where
  | caps (c : Option GstCaps)
  | other
deriving DecidableEq, Repr

/-! ## Library calls used by the file -/

/-- Width of `guint`. -/
def GUINT_MOD : Nat := 2 ^ 32

/-- `g_atomic_int_add (&atomic, val)`: the value before the addition and the
new content of the 32-bit cell. -/
def g_atomic_int_add (atomic val : Nat) : Nat × Nat :=
  (atomic, (atomic + val) % GUINT_MOD)

/-- `printf` conversion `%u`. -/
def fmt_u (n : Nat) : String := toString n

/-- `AGNOSTICBIN3_SINK_PAD`, the format "sink_%u". -/
def AGNOSTICBIN3_SINK_PAD (n : Nat) : String := "sink_" ++ fmt_u n

/-- `AGNOSTICBIN3_SRC_PAD`, the format "src_%u". -/
def AGNOSTICBIN3_SRC_PAD (n : Nat) : String := "src_" ++ fmt_u n

/-- The test repeated at lines 131-133 and 284-286: the element is at, going
to, or aimed at `PAUSED` or above. -/
def paused_or_above (self : KmsAgnosticBin3) : Bool :=
  decide (GstState.PAUSED.toNat ≤ self.cur_state.toNat)
    || decide (GstState.PAUSED.toNat ≤ self.pending_state.toNat)
    || decide (GstState.PAUSED.toNat ≤ self.target_state.toNat)

/-- Modelled from the spec: the converter node `agnosticbin` is not part of this
file; `createOutputConnection() -> handle` always yields a new output
connection.  `gst_element_get_request_pad (transcoder, "src_%u")` gives NULL
only when the pointer is not a child of the bin. -/
def gst_element_get_request_pad (self : KmsAgnosticBin3) (transcoder : Nat) :
    KmsAgnosticBin3 × Option TranscoderPad :=
  match self.children[transcoder]? with
  | none => (self, none)
  | some e =>
    ({ self with
        children := self.children.set transcoder
          { pad_count := e.pad_count + 1, srcpads := e.srcpads ++ [e.pad_count] } },
      some { element := transcoder, pad := e.pad_count })

/-- Modelled from the spec: `releaseOutputConnection(handle)` of the converter
node removes that output connection from the node. -/
def gst_element_release_request_pad (self : KmsAgnosticBin3) (transcoder : Nat)
    (target : Option TranscoderPad) : KmsAgnosticBin3 :=
  match self.children[transcoder]?, target with
  | some e, some t =>
    { self with
        children := self.children.set transcoder { e with srcpads := e.srcpads.erase t.pad } }
  | _, _ => self

/-- `gst_ghost_pad_set_target (pad, target)`: the old target is dropped first;
a NULL target only clears and succeeds; otherwise the outcome of linking the
new target is `link_ok`. -/
def gst_ghost_pad_set_target (pad : SrcGhostPad) (target : Option TranscoderPad)
    (link_ok : Bool) : SrcGhostPad × Bool :=
  match target with
  | none => ({ pad with target := none }, true)
  | some t =>
    if link_ok then ({ pad with target := some t }, true)
    else ({ pad with target := none }, false)

/-! ## The functions of kmsagnosticbin3.c -/

/-- `create_src_pad_data` (lines 105-115): zeroed record, state UNCONFIGURED. -/
def create_src_pad_data : KmsSrcPadData :=
  { state := KmsSrcPadState.UNCONFIGURED, caps := none }

/-- `kms_agnostic_bin3_append_pending_src_pad` (lines 128-138): activate the
pad when the element is at or heading to PAUSED, then add it to the element.
The result is the element and the position of the pad. -/
def kms_agnostic_bin3_append_pending_src_pad (self : KmsAgnosticBin3)
    (pad : SrcGhostPad) : KmsAgnosticBin3 × Nat :=
  let pad1 := if paused_or_above self then { pad with active := true } else pad
  ({ self with srcpads := self.srcpads ++ [pad1] }, self.srcpads.length)

/-- `get_transcoder_connected_to_sinkpad` (lines 140-155): the parent element
of the peer of the internal proxy pad, that is the element owning the target. -/
def get_transcoder_connected_to_sinkpad (pad : SinkGhostPad) : Option Nat :=
  pad.target

/-- `link_pending_src_pads` (lines 157-234), the re-evaluation of one source
pad when caps arrive on `sinkpad`.  `link_ok` is the outcome of linking the
target inside `gst_ghost_pad_set_target`. -/
def link_pending_src_pads (self : KmsAgnosticBin3) (srcpad sinkpad : Nat)
    (link_ok : Bool) : KmsAgnosticBin3 :=
  match self.sinkpads[sinkpad]? with
  | none => self
  | some sink =>
    match self.srcpads[srcpad]? with
    | none => self
    | some pad =>
      if !pad.peer then self
      else
        match pad.data with
        | none => self
        | some data =>
          match data.state with
          | .UNCONFIGURED =>
            match get_transcoder_connected_to_sinkpad sink with
            | none => self
            | some transcoder =>
              let r := gst_element_get_request_pad self transcoder
              let b := gst_ghost_pad_set_target pad r.2 link_ok
              if !b.2 then
                gst_element_release_request_pad
                  { r.1 with srcpads := r.1.srcpads.set srcpad b.1 } transcoder r.2
              else
                { r.1 with
                    srcpads := r.1.srcpads.set srcpad
                      { b.1 with data := some { data with state := .LINKED } } }
          | .CONFIGURED => self
          | .WAITING => self
          | .LINKED => self

/-- Modelled from the spec: `kms_element_for_each_src_pad` lives in kmsutils.c;
`forEachSource(fn)` calls `fn` once on every source pad of the element. -/
def kms_element_for_each_src_pad (self : KmsAgnosticBin3)
    (action : KmsAgnosticBin3 → Nat → KmsAgnosticBin3) : KmsAgnosticBin3 :=
  (List.range self.srcpads.length).foldl action self

/-- `kms_agnostic_bin3_sink_caps_probe` (lines 236-262).  `link_ok i` is the
outcome of linking a target for source pad `i`, should it be tried. -/
def kms_agnostic_bin3_sink_caps_probe (self : KmsAgnosticBin3) (pad : Nat)
    (event : GstEvent) (link_ok : Nat → Bool) : KmsAgnosticBin3 :=
  match event with
  | .other => self
  | .caps none => self
  | .caps (some _) =>
    kms_element_for_each_src_pad self
      (fun s srcpad => link_pending_src_pads s srcpad pad (link_ok srcpad))

/-- `kms_agnostic_bin3_request_sink_pad` (lines 264-306). -/
def kms_agnostic_bin3_request_sink_pad (self : KmsAgnosticBin3) :
    KmsAgnosticBin3 × Nat :=
  let agnosticbin := self.children.length
  let self1 := { self with children := self.children ++ [{ pad_count := 0, srcpads := [] }] }
  let target := agnosticbin
  let c := g_atomic_int_add self1.sink_pad_count 1
  let padname := AGNOSTICBIN3_SINK_PAD c.1
  let pad : SinkGhostPad := { name := padname, active := false, target := some target }
  let pad1 := if paused_or_above self1 then { pad with active := true } else pad
  let self2 := { self1 with sink_pad_count := c.2, sinkpads := self1.sinkpads ++ [pad1] }
  let self3 := { self2 with agnosticbins := agnosticbin :: self2.agnosticbins }
  (self3, self.sinkpads.length)

/-- `kms_agnostic_bin3_get_compatible_transcoder_tree` (lines 308-324): the
loop over the registered agnosticbins has an empty body. -/
def kms_agnostic_bin3_get_compatible_transcoder_tree (self : KmsAgnosticBin3)
    (_caps : GstCaps) : Option Nat :=
  self.agnosticbins.foldl (fun agnostic _ => agnostic) none

/-- `kms_agnostic_bin3_create_new_src_pad` (lines 326-339): a ghost pad without
target named after the counter, not yet added to the element. -/
def kms_agnostic_bin3_create_new_src_pad (self : KmsAgnosticBin3) :
    KmsAgnosticBin3 × SrcGhostPad :=
  let c := g_atomic_int_add self.src_pad_count 1
  let padname := AGNOSTICBIN3_SRC_PAD c.1
  ({ self with src_pad_count := c.2 },
    { name := padname, active := false, target := none, peer := false, data := none })

/-- `kms_agnostic_bin3_create_src_pad_with_transcodification` (lines 341-354). -/
def kms_agnostic_bin3_create_src_pad_with_transcodification (self : KmsAgnosticBin3)
    (_caps : GstCaps) : KmsAgnosticBin3 × SrcGhostPad :=
  kms_agnostic_bin3_create_new_src_pad self

/-- `kms_agnostic_bin3_create_src_pad_with_caps` (lines 356-396).  `signal` is
what the handlers of the "caps" signal wrote into `ret`, `none` when no handler
ran; `ret` starts as FALSE.  The result is NULL when a compatible transcoder
tree is found. -/
def kms_agnostic_bin3_create_src_pad_with_caps (self : KmsAgnosticBin3)
    (caps : GstCaps) (signal : Option Bool) : KmsAgnosticBin3 × Option Nat :=
  match kms_agnostic_bin3_get_compatible_transcoder_tree self caps with
  | some _ => (self, none)
  | none =>
    let paddata : KmsSrcPadData := { create_src_pad_data with caps := some caps }
    let ret := signal.getD false
    let q : KmsSrcPadData × (KmsAgnosticBin3 × SrcGhostPad) :=
      if ret then
        ({ paddata with state := .WAITING }, kms_agnostic_bin3_create_new_src_pad self)
      else
        ({ paddata with state := .CONFIGURED },
          kms_agnostic_bin3_create_src_pad_with_transcodification self caps)
    let pad := { q.2.2 with data := some q.1 }
    let r := kms_agnostic_bin3_append_pending_src_pad q.2.1 pad
    (r.1, some r.2)

/-- `kms_agnostic_bin3_create_src_pad_without_caps` (lines 398-413). -/
def kms_agnostic_bin3_create_src_pad_without_caps (self : KmsAgnosticBin3) :
    KmsAgnosticBin3 × Nat :=
  let paddata := create_src_pad_data
  let q := kms_agnostic_bin3_create_new_src_pad self
  let pad := { q.2 with data := some paddata }
  kms_agnostic_bin3_append_pending_src_pad q.1 pad

/-- `kms_agnostic_bin3_request_src_pad` (lines 415-428). -/
def kms_agnostic_bin3_request_src_pad (self : KmsAgnosticBin3)
    (caps : Option GstCaps) (signal : Option Bool) : KmsAgnosticBin3 × Option Nat :=
  match caps with
  | some c => kms_agnostic_bin3_create_src_pad_with_caps self c signal
  | none =>
    let r := kms_agnostic_bin3_create_src_pad_without_caps self
    (r.1, some r.2)

/-- `kms_agnostic_bin3_request_new_pad` (lines 430-449). -/
def kms_agnostic_bin3_request_new_pad (self : KmsAgnosticBin3) (templ : PadTemplate)
    (caps : Option GstCaps) (signal : Option Bool) : KmsAgnosticBin3 × Option GstPadRef :=
  match templ with
  | .sink =>
    let r := kms_agnostic_bin3_request_sink_pad self
    (r.1, some (GstPadRef.sink r.2))
  | .src =>
    let r := kms_agnostic_bin3_request_src_pad self caps signal
    (r.1, r.2.map GstPadRef.src)
  | .other => (self, none)

/-- `kms_agnostic_bin3_release_pad` (lines 451-456): only a log line. -/
def kms_agnostic_bin3_release_pad (self : KmsAgnosticBin3) (_pad : GstPadRef) :
    KmsAgnosticBin3 :=
  self

/-- `kms_agnostic_bin3_init` (lines 510-517): the private record is zeroed and
the element starts in the NULL state. -/
def kms_agnostic_bin3_init : KmsAgnosticBin3 :=
  { agnosticbins := [], src_pad_count := 0, sink_pad_count := 0,
    cur_state := .NULL, pending_state := .VOID_PENDING, target_state := .NULL,
    children := [], sinkpads := [], srcpads := [] }

/-! ## Runs of the connector -/

/-- What can happen to a connector: the two entry points of the element class,
an event reaching the probe of a sink pad, and the two things the pipeline
does to it from outside (a downstream peer is linked to or unlinked from a
source pad; the state of the element changes). -/
inductive Call where
  | request_new_pad (templ : PadTemplate) (caps : Option GstCaps) (signal : Option Bool)
  | release_pad (pad : GstPadRef)
  | sink_event (sinkpad : Nat) (event : GstEvent) (link_ok : Nat → Bool)
  | peer_link (srcpad : Nat) (linked : Bool)
  | set_state (cur pending target : GstState)

/-- The downstream peer of source pad `srcpad` is linked or unlinked. -/
def set_peer (self : KmsAgnosticBin3) (srcpad : Nat) (linked : Bool) : KmsAgnosticBin3 :=
  match self.srcpads[srcpad]? with
  | none => self
  | some pad => { self with srcpads := self.srcpads.set srcpad { pad with peer := linked } }

/-- One call on the connector. -/
def step (self : KmsAgnosticBin3) : Call → KmsAgnosticBin3
  | .request_new_pad templ caps signal =>
    (kms_agnostic_bin3_request_new_pad self templ caps signal).1
  | .release_pad pad => kms_agnostic_bin3_release_pad self pad
  | .sink_event sinkpad event link_ok =>
    kms_agnostic_bin3_sink_caps_probe self sinkpad event link_ok
  | .peer_link srcpad linked => set_peer self srcpad linked
  | .set_state cur pending target =>
    { self with cur_state := cur, pending_state := pending, target_state := target }

/-- A sequence of calls. -/
def run (self : KmsAgnosticBin3) (calls : List Call) : KmsAgnosticBin3 :=
  calls.foldl step self

/-- The states a connector can be in: those a sequence of calls produces from
a fresh one. -/
def Reachable (s : KmsAgnosticBin3) : Prop :=
  ∃ calls : List Call, run kms_agnostic_bin3_init calls = s

/-- State of source pad `i`, when the pad exists and carries its data. -/
def src_state (s : KmsAgnosticBin3) (i : Nat) : Option KmsSrcPadState :=
  (s.srcpads[i]?).bind (fun p => p.data.map (fun d => d.state))

/-- Target of source pad `i`; `none` when there is no pad or no target. -/
def src_target (s : KmsAgnosticBin3) (i : Nat) : Option TranscoderPad :=
  (s.srcpads[i]?).bind (fun p => p.target)

/-- Declared caps of source pad `i`. -/
def src_caps (s : KmsAgnosticBin3) (i : Nat) : Option GstCaps :=
  (s.srcpads[i]?).bind (fun p => p.data.bind (fun d => d.caps))

/-- Request pads currently alive on child `e`. -/
def outputs (s : KmsAgnosticBin3) (e : Nat) : List Nat :=
  ((s.children[e]?).map (fun c => c.srcpads)).getD []

open KmsSrcPadState

/-! ## Closed forms, invariants and scenarios used by the theorems -/

/-- What holds of every connector built by calls from a fresh one. -/
structure WellFormed (s : KmsAgnosticBin3) : Prop where
  /-- every source pad carries data, has a target exactly when LINKED, and its
  target is a live request pad of a registered child that is behind a sink pad -/
  src_ok : ∀ (i : Nat) (pad : SrcGhostPad), s.srcpads[i]? = some pad →
    ∃ d : KmsSrcPadData, pad.data = some d ∧
      (pad.target.isSome = true ↔ d.state = LINKED) ∧
      ∀ t : TranscoderPad, pad.target = some t →
        t.element ∈ s.agnosticbins ∧ t.pad ∈ outputs s t.element ∧
          ∃ (k : Nat) (sink : SinkGhostPad),
            s.sinkpads[k]? = some sink ∧ sink.target = some t.element
  /-- every sink pad proxies a child of the bin that is registered -/
  sink_ok : ∀ (k : Nat) (sink : SinkGhostPad), s.sinkpads[k]? = some sink →
    ∃ t : Nat, sink.target = some t ∧ t < s.children.length ∧ t ∈ s.agnosticbins
  /-- a child has never handed out the number it will hand out next -/
  fresh : ∀ (e : Nat) (c : AgnosticBin), s.children[e]? = some c →
    ∀ p ∈ c.srcpads, p < c.pad_count
  /-- two source pads never share a target -/
  uniq : ∀ (i j : Nat) (pa pb : SrcGhostPad) (t : TranscoderPad), i ≠ j →
    s.srcpads[i]? = some pa → s.srcpads[j]? = some pb →
    pa.target = some t → pb.target ≠ some t

/-- The source pad a request creates: named after the counter, without target,
without downstream peer, active when the element is at or heading to PAUSED. -/
def new_src_pad (s : KmsAgnosticBin3) (d : KmsSrcPadData) : SrcGhostPad :=
  { name := AGNOSTICBIN3_SRC_PAD s.src_pad_count, active := paused_or_above s,
    target := none, peer := false, data := some d }

/-- The connector after a source pad carrying `d` has been created and added. -/
def with_new_src_pad (s : KmsAgnosticBin3) (d : KmsSrcPadData) : KmsAgnosticBin3 :=
  { s with
      src_pad_count := (s.src_pad_count + 1) % GUINT_MOD,
      srcpads := s.srcpads ++ [new_src_pad s d] }

/-- The connector after a sink pad has been requested. -/
def with_new_sink_pad (s : KmsAgnosticBin3) : KmsAgnosticBin3 :=
  { s with
      agnosticbins := s.children.length :: s.agnosticbins,
      sink_pad_count := (s.sink_pad_count + 1) % GUINT_MOD,
      children := s.children ++ [{ pad_count := 0, srcpads := [] }],
      sinkpads := s.sinkpads ++
        [{ name := AGNOSTICBIN3_SINK_PAD s.sink_pad_count, active := paused_or_above s,
           target := some s.children.length }] }

/-- The characters `%u` prints for `n`. -/
def decimal (n : Nat) : List Char :=
  if n = 0 then ['0'] else (Nat.digits 10 n).reverse.map Nat.digitChar

/-- Names of the sink pads, in the order of creation. -/
def sink_names (s : KmsAgnosticBin3) : List String := s.sinkpads.map (fun p => p.name)

/-- Names of the source pads, in the order of creation. -/
def src_names (s : KmsAgnosticBin3) : List String := s.srcpads.map (fun p => p.name)

/-- The counters follow the number of pads modulo 2^32 and the pad at position
`k` is named after `k` modulo 2^32. -/
structure Named (s : KmsAgnosticBin3) : Prop where
  sink_count : s.sink_pad_count = s.sinkpads.length % GUINT_MOD
  src_count : s.src_pad_count = s.srcpads.length % GUINT_MOD
  sink_name : sink_names s =
    (List.range s.sinkpads.length).map (fun k => AGNOSTICBIN3_SINK_PAD (k % GUINT_MOD))
  src_name : src_names s =
    (List.range s.srcpads.length).map (fun k => AGNOSTICBIN3_SRC_PAD (k % GUINT_MOD))

/-- A source pad that has no downstream peer or is past UNCONFIGURED. -/
def Inert (p : SrcGhostPad) : Prop :=
  p.peer = false ∨ ∃ d, p.data = some d ∧ d.state ≠ UNCONFIGURED

/-- The sequence of 2^32 + 1 sink pad requests. -/
def many_sink_requests : List Call :=
  List.replicate (GUINT_MOD + 1) (Call.request_new_pad PadTemplate.sink none none)

/-- A short life of a connector: two sink pads, three source pads, a release. -/
def demo_calls : List Call :=
  [Call.request_new_pad PadTemplate.sink none none,
   Call.request_new_pad PadTemplate.src none none,
   Call.request_new_pad PadTemplate.src (some 7) (some true),
   Call.release_pad (GstPadRef.src 0),
   Call.request_new_pad PadTemplate.sink none none,
   Call.request_new_pad PadTemplate.src (some 7) none]

/-- Scenario B: a sink pad, a source pad requested with caps 7 that no handler
claims, a downstream peer for it, then caps 7 arriving on the sink pad with
every target link succeeding. -/
def scenario_B : List Call :=
  [Call.request_new_pad PadTemplate.sink none none,
   Call.request_new_pad PadTemplate.src (some 7) none,
   Call.peer_link 0 true,
   Call.sink_event 0 (GstEvent.caps (some 7)) (fun _ => true)]

/-- Scenario A: a sink pad, a source pad requested without caps, a downstream
peer for it, then caps 7 arriving on the sink pad with every target link
succeeding. -/
def scenario_A : List Call :=
  [Call.request_new_pad PadTemplate.sink none none,
   Call.request_new_pad PadTemplate.src none none,
   Call.peer_link 0 true,
   Call.sink_event 0 (GstEvent.caps (some 7)) (fun _ => true)]

/-- What follows scenario A: caps again on the same sink pad, a second sink pad
and caps on it, a second source pad, a release and the loss of the peer. -/
def after_linked : List Call :=
  [Call.sink_event 0 (GstEvent.caps (some 8)) (fun _ => true),
   Call.request_new_pad PadTemplate.sink none none,
   Call.sink_event 1 (GstEvent.caps (some 9)) (fun _ => true),
   Call.request_new_pad PadTemplate.src none none,
   Call.release_pad (GstPadRef.src 0),
   Call.peer_link 0 false,
   Call.sink_event 1 (GstEvent.caps (some 9)) (fun _ => false)]

/-- Scenario C: a sink pad, a source pad requested with caps 7 that a handler
claims, a downstream peer for it. -/
def scenario_C : List Call :=
  [Call.request_new_pad PadTemplate.sink none none,
   Call.request_new_pad PadTemplate.src (some 7) (some true),
   Call.peer_link 0 true]

/-- Scenario A up to the moment the caps arrive. -/
def before_caps : List Call := scenario_A.take 3

/-- Two source pads without caps behind one sink pad; only the second gets a
downstream peer. -/
def two_pads : List Call :=
  [Call.request_new_pad PadTemplate.sink none none,
   Call.request_new_pad PadTemplate.src none none,
   Call.request_new_pad PadTemplate.src none none,
   Call.peer_link 1 true]

/-! # Theorems -/

/-! ## Re-evaluation of one source pad: case analysis -/

/-- A pad that is missing, has no downstream peer, has no data, or is not
UNCONFIGURED is left alone, and so is everything else. -/
theorem link_noop (s : KmsAgnosticBin3) (i k : Nat) (ok : Bool)
    (h : ∀ pad, s.srcpads[i]? = some pad →
      pad.peer = false ∨ pad.data = none ∨
        ∃ d, pad.data = some d ∧ d.state ≠ UNCONFIGURED) :
    link_pending_src_pads s i k ok = s := by
  unfold link_pending_src_pads
  cases hk : s.sinkpads[k]? with
  | none => rfl
  | some sink =>
    cases hp : s.srcpads[i]? with
    | none => rfl
    | some pad =>
      rcases h pad hp with h1 | h1 | ⟨d, h1, h2⟩
      · simp [h1]
      · simp [h1]
      · simp only [h1]
        split
        · rfl
        · cases hd : d.state
          · exact absurd hd h2
          all_goals rfl

/-- No sink pad at `k`: nothing happens. -/
theorem link_no_sink (s : KmsAgnosticBin3) (i k : Nat) (ok : Bool)
    (h : s.sinkpads[k]? = none) : link_pending_src_pads s i k ok = s := by
  simp [link_pending_src_pads, h]

/-- The sink pad has no transcoder behind it: nothing happens. -/
theorem link_no_transcoder (s : KmsAgnosticBin3) (i k : Nat) (ok : Bool)
    (sink : SinkGhostPad) (h : s.sinkpads[k]? = some sink) (ht : sink.target = none) :
    link_pending_src_pads s i k ok = s := by
  unfold link_pending_src_pads
  simp only [h, get_transcoder_connected_to_sinkpad, ht]
  cases hp : s.srcpads[i]? with
  | none => rfl
  | some pad =>
    simp only
    split
    · rfl
    · cases hd : pad.data with
      | none => rfl
      | some d => cases hs : d.state <;> simp [hs]

/-- The linking attempt, target bound. -/
theorem link_success (s : KmsAgnosticBin3) (i k : Nat)
    (sink : SinkGhostPad) (pad : SrcGhostPad) (d : KmsSrcPadData) (t : Nat)
    (e : AgnosticBin)
    (hk : s.sinkpads[k]? = some sink) (hp : s.srcpads[i]? = some pad)
    (hpe : pad.peer = true) (hd : pad.data = some d) (hs : d.state = UNCONFIGURED)
    (ht : sink.target = some t) (he : s.children[t]? = some e) :
    link_pending_src_pads s i k true =
      { s with
          children := s.children.set t
            { pad_count := e.pad_count + 1, srcpads := e.srcpads ++ [e.pad_count] },
          srcpads := s.srcpads.set i
            { pad with
                target := some { element := t, pad := e.pad_count },
                data := some { d with state := LINKED } } } := by
  simp [link_pending_src_pads, hk, hp, hpe, hd, hs, ht, he,
    get_transcoder_connected_to_sinkpad, gst_element_get_request_pad,
    gst_ghost_pad_set_target]

/-- The linking attempt, target not bound: the request pad is given back. -/
theorem link_failure (s : KmsAgnosticBin3) (i k : Nat)
    (sink : SinkGhostPad) (pad : SrcGhostPad) (d : KmsSrcPadData) (t : Nat)
    (e : AgnosticBin)
    (hk : s.sinkpads[k]? = some sink) (hp : s.srcpads[i]? = some pad)
    (hpe : pad.peer = true) (hd : pad.data = some d) (hs : d.state = UNCONFIGURED)
    (ht : sink.target = some t) (he : s.children[t]? = some e) :
    link_pending_src_pads s i k false =
      { s with
          children := s.children.set t
            { pad_count := e.pad_count + 1,
              srcpads := (e.srcpads ++ [e.pad_count]).erase e.pad_count },
          srcpads := s.srcpads.set i { pad with target := none } } := by
  have hlt : t < s.children.length := by
    rcases List.getElem?_eq_some_iff.1 he with ⟨h, _⟩
    exact h
  simp [link_pending_src_pads, hk, hp, hpe, hd, hs, ht, he,
    get_transcoder_connected_to_sinkpad, gst_element_get_request_pad,
    gst_ghost_pad_set_target, gst_element_release_request_pad, hlt]

/-- The linking attempt when the transcoder pointer is not a child of the bin:
no request pad, the target is cleared and the pad is marked LINKED. -/
theorem link_dangling (s : KmsAgnosticBin3) (i k : Nat) (ok : Bool)
    (sink : SinkGhostPad) (pad : SrcGhostPad) (d : KmsSrcPadData) (t : Nat)
    (hk : s.sinkpads[k]? = some sink) (hp : s.srcpads[i]? = some pad)
    (hpe : pad.peer = true) (hd : pad.data = some d) (hs : d.state = UNCONFIGURED)
    (ht : sink.target = some t) (he : s.children[t]? = none) :
    link_pending_src_pads s i k ok =
      { s with
          srcpads := s.srcpads.set i
            { pad with target := none, data := some { d with state := LINKED } } } := by
  simp [link_pending_src_pads, hk, hp, hpe, hd, hs, ht, he,
    get_transcoder_connected_to_sinkpad, gst_element_get_request_pad,
    gst_ghost_pad_set_target]

/-- Either nothing happens, or the pad is an UNCONFIGURED pad with a downstream
peer and the sink pad has a transcoder behind it. -/
theorem link_cases (s : KmsAgnosticBin3) (i k : Nat) (ok : Bool) :
    link_pending_src_pads s i k ok = s ∨
      ∃ sink pad d t, s.sinkpads[k]? = some sink ∧ s.srcpads[i]? = some pad ∧
        pad.peer = true ∧ pad.data = some d ∧ d.state = UNCONFIGURED ∧
        sink.target = some t := by
  cases hk : s.sinkpads[k]? with
  | none => exact Or.inl (link_no_sink s i k ok hk)
  | some sink =>
    cases ht : sink.target with
    | none => exact Or.inl (link_no_transcoder s i k ok sink hk ht)
    | some t =>
      cases hp : s.srcpads[i]? with
      | none =>
        refine Or.inl (link_noop s i k ok ?_)
        intro pad h
        rw [hp] at h
        cases h
      | some pad =>
        by_cases hpe : pad.peer = true
        · cases hd : pad.data with
          | none =>
            refine Or.inl (link_noop s i k ok ?_)
            intro pad1 h
            rw [hp] at h
            cases h
            exact Or.inr (Or.inl hd)
          | some d =>
            by_cases hs : d.state = UNCONFIGURED
            · exact Or.inr ⟨sink, pad, d, t, rfl, rfl, hpe, hd, hs, ht⟩
            · refine Or.inl (link_noop s i k ok ?_)
              intro pad1 h
              rw [hp] at h
              cases h
              exact Or.inr (Or.inr ⟨d, hd, hs⟩)
        · refine Or.inl (link_noop s i k ok ?_)
          intro pad1 h
          rw [hp] at h
          cases h
          left
          simpa using hpe

/-! ## What re-evaluation never touches -/

/-- Re-evaluation changes only the children and the source pads. -/
theorem link_frame (s : KmsAgnosticBin3) (i k : Nat) (ok : Bool) :
    (link_pending_src_pads s i k ok).agnosticbins = s.agnosticbins ∧
    (link_pending_src_pads s i k ok).src_pad_count = s.src_pad_count ∧
    (link_pending_src_pads s i k ok).sink_pad_count = s.sink_pad_count ∧
    (link_pending_src_pads s i k ok).cur_state = s.cur_state ∧
    (link_pending_src_pads s i k ok).pending_state = s.pending_state ∧
    (link_pending_src_pads s i k ok).target_state = s.target_state ∧
    (link_pending_src_pads s i k ok).sinkpads = s.sinkpads ∧
    (link_pending_src_pads s i k ok).srcpads.length = s.srcpads.length ∧
    (link_pending_src_pads s i k ok).children.length = s.children.length := by
  rcases link_cases s i k ok with h | ⟨sink, pad, d, t, hk, hp, hpe, hd, hs, ht⟩
  · rw [h]
    simp
  · cases he : s.children[t]? with
    | none =>
      rw [link_dangling s i k ok sink pad d t hk hp hpe hd hs ht he]
      simp
    | some e =>
      cases ok
      · rw [link_failure s i k sink pad d t e hk hp hpe hd hs ht he]
        simp
      · rw [link_success s i k sink pad d t e hk hp hpe hd hs ht he]
        simp

/-- Re-evaluating pad `i` leaves every other source pad as it was. -/
theorem link_other (s : KmsAgnosticBin3) (i k : Nat) (ok : Bool) (j : Nat) (hij : i ≠ j) :
    (link_pending_src_pads s i k ok).srcpads[j]? = s.srcpads[j]? := by
  rcases link_cases s i k ok with h | ⟨sink, pad, d, t, hk, hp, hpe, hd, hs, ht⟩
  · rw [h]
  · cases he : s.children[t]? with
    | none =>
      rw [link_dangling s i k ok sink pad d t hk hp hpe hd hs ht he]
      simp [List.getElem?_set, hij]
    | some e =>
      cases ok
      · rw [link_failure s i k sink pad d t e hk hp hpe hd hs ht he]
        simp [List.getElem?_set, hij]
      · rw [link_success s i k sink pad d t e hk hp hpe hd hs ht he]
        simp [List.getElem?_set, hij]

/-- Re-evaluating any pad keeps name, activation, downstream peer and declared
caps of every source pad. -/
theorem link_keeps (s : KmsAgnosticBin3) (i k : Nat) (ok : Bool) (j : Nat)
    (p : SrcGhostPad) (hj : s.srcpads[j]? = some p) :
    ∃ q, (link_pending_src_pads s i k ok).srcpads[j]? = some q ∧
      q.name = p.name ∧ q.active = p.active ∧ q.peer = p.peer ∧
      q.data.bind (fun d => d.caps) = p.data.bind (fun d => d.caps) := by
  by_cases hij : i = j
  · subst hij
    have hlt : i < s.srcpads.length := (List.getElem?_eq_some_iff.1 hj).1
    rcases link_cases s i k ok with h | ⟨sink, pad, d, t, hk, hp, hpe, hd, hs, ht⟩
    · rw [h]
      exact ⟨p, hj, rfl, rfl, rfl, rfl⟩
    · rw [hj] at hp
      cases hp
      cases he : s.children[t]? with
      | none =>
        rw [link_dangling s i k ok sink p d t hk hj hpe hd hs ht he]
        simp [List.getElem?_set, hlt, hd]
      | some e =>
        cases ok
        · rw [link_failure s i k sink p d t e hk hj hpe hd hs ht he]
          simp [List.getElem?_set, hlt]
        · rw [link_success s i k sink p d t e hk hj hpe hd hs ht he]
          simp [List.getElem?_set, hlt, hd]
  · exact ⟨p, by rw [link_other s i k ok j hij]; exact hj, rfl, rfl, rfl, rfl⟩

/-! ## The invariant of reachable connectors -/

theorem outputs_set (s : KmsAgnosticBin3) (t : Nat) (c : AgnosticBin) (x : Nat)
    (src : List SrcGhostPad) (ht : t < s.children.length) :
    outputs { s with children := s.children.set t c, srcpads := src } x =
      if t = x then c.srcpads else outputs s x := by
  unfold outputs
  simp only [List.getElem?_set]
  by_cases h : t = x
  · simp [h, ht]
    subst h
    simp [ht]
  · simp [h]

theorem mem_outputs_lt (s : KmsAgnosticBin3) (e p : Nat) (h : p ∈ outputs s e) :
    ∃ c, s.children[e]? = some c ∧ p ∈ c.srcpads := by
  unfold outputs at h
  cases hc : s.children[e]? with
  | none => simp [hc] at h
  | some c => exact ⟨c, rfl, by simpa [hc] using h⟩

theorem inv_init : WellFormed kms_agnostic_bin3_init := by
  constructor <;> simp [kms_agnostic_bin3_init]

/-- The successful link keeps the invariant. -/
theorem inv_link_success (s : KmsAgnosticBin3) (hI : WellFormed s) (i k : Nat)
    (sink : SinkGhostPad) (pad : SrcGhostPad) (d : KmsSrcPadData) (t : Nat)
    (e : AgnosticBin)
    (hk : s.sinkpads[k]? = some sink) (hp : s.srcpads[i]? = some pad)
    (ht : sink.target = some t) (he : s.children[t]? = some e) :
    WellFormed { s with
          children := s.children.set t
            { pad_count := e.pad_count + 1, srcpads := e.srcpads ++ [e.pad_count] },
          srcpads := s.srcpads.set i
            { pad with
                target := some { element := t, pad := e.pad_count },
                data := some { d with state := LINKED } } } := by
  have hlt : t < s.children.length := (List.getElem?_eq_some_iff.1 he).1
  have hil : i < s.srcpads.length := (List.getElem?_eq_some_iff.1 hp).1
  obtain ⟨t0, ht0, _, htreg⟩ := hI.sink_ok k sink hk
  rw [ht] at ht0
  cases ht0
  -- an old target is never the pad handed out now
  have hold : ∀ (j : Nat) (pj : SrcGhostPad) (tj : TranscoderPad),
      s.srcpads[j]? = some pj → pj.target = some tj →
      tj ≠ ({ element := t, pad := e.pad_count } : TranscoderPad) := by
    intro j pj tj hj htj heq
    obtain ⟨dj, _, _, h3⟩ := hI.src_ok j pj hj
    obtain ⟨_, hmem, _⟩ := h3 tj htj
    obtain ⟨c, hc, hpc⟩ := mem_outputs_lt s _ _ hmem
    rw [heq] at hc hpc
    simp only at hc hpc
    rw [he] at hc
    cases hc
    exact absurd (hI.fresh t e he _ hpc) (lt_irrefl _)
  constructor
  · intro j pj hj
    simp only [List.getElem?_set] at hj
    by_cases hij : i = j
    · simp only [hij, if_true] at hj
      subst hij
      simp only [hil, if_true] at hj
      cases hj
      refine ⟨_, rfl, by simp, ?_⟩
      intro tj htj
      simp only [Option.some.injEq] at htj
      subst htj
      refine ⟨htreg, ?_, k, sink, hk, ht⟩
      rw [outputs_set s t _ _ _ hlt]
      simp
    · simp only [hij, if_false] at hj
      obtain ⟨dj, h1, h2, h3⟩ := hI.src_ok j pj hj
      refine ⟨dj, h1, h2, ?_⟩
      intro tj htj
      obtain ⟨a, b, c⟩ := h3 tj htj
      refine ⟨a, ?_, c⟩
      rw [outputs_set s t _ _ _ hlt]
      by_cases hx : t = tj.element
      · simp only [hx, if_true]
        obtain ⟨c1, hc1, hpc1⟩ := mem_outputs_lt s _ _ b
        rw [← hx, he] at hc1
        cases hc1
        simp [hpc1]
      · simp only [hx, if_false]
        exact b
  · intro k1 sink1 hk1
    obtain ⟨t1, a, b, c⟩ := hI.sink_ok k1 sink1 hk1
    exact ⟨t1, a, by simpa using b, c⟩
  · intro e1 c1 hc1 p hp1
    simp only [List.getElem?_set] at hc1
    by_cases hx : t = e1
    · simp only [hx, if_true] at hc1
      subst hx
      simp only [hlt, if_true] at hc1
      cases hc1
      simp only [List.mem_append, List.mem_singleton] at hp1
      rcases hp1 with h | h
      · exact Nat.lt_succ_of_lt (hI.fresh t e he p h)
      · rw [h]
        exact Nat.lt_succ_self _
    · simp only [hx, if_false] at hc1
      exact hI.fresh e1 c1 hc1 p hp1
  · intro a b pa pb tt hab ha hb hta
    simp only [List.getElem?_set] at ha hb
    by_cases hia : i = a
    · have hib : i ≠ b := fun h => hab (hia ▸ h ▸ rfl)
      simp only [hia, if_true] at ha
      subst hia
      simp only [hil, if_true] at ha
      cases ha
      simp only [hib, if_false] at hb
      simp only [Option.some.injEq] at hta
      subst hta
      intro hcon
      exact hold b pb _ hb hcon rfl
    · simp only [hia, if_false] at ha
      by_cases hib : i = b
      · simp only [hib, if_true] at hb
        subst hib
        simp only [hil, if_true] at hb
        cases hb
        intro hcon
        simp only [Option.some.injEq] at hcon
        exact hold a pa tt ha hta hcon.symm
      · simp only [hib, if_false] at hb
        exact hI.uniq a b pa pb tt hab ha hb hta

theorem set_same {α : Type} (l : List α) (i : Nat) (a : α) (h : l[i]? = some a) :
    l.set i a = l := by
  apply List.ext_getElem?
  intro j
  rw [List.getElem?_set]
  by_cases hij : i = j
  · subst hij
    have hl : i < l.length := (List.getElem?_eq_some_iff.1 h).1
    simp [hl, h]
  · simp [hij]

/-- In a well-formed connector a failed link changes one thing only: the
child has used up one pad number. -/
theorem link_failure_wf (s : KmsAgnosticBin3) (hI : WellFormed s) (i k : Nat)
    (sink : SinkGhostPad) (pad : SrcGhostPad) (d : KmsSrcPadData) (t : Nat)
    (e : AgnosticBin)
    (hk : s.sinkpads[k]? = some sink) (hp : s.srcpads[i]? = some pad)
    (hpe : pad.peer = true) (hd : pad.data = some d) (hs : d.state = UNCONFIGURED)
    (ht : sink.target = some t) (he : s.children[t]? = some e) :
    link_pending_src_pads s i k false =
      { s with children := s.children.set t { e with pad_count := e.pad_count + 1 } } := by
  rw [link_failure s i k sink pad d t e hk hp hpe hd hs ht he]
  have hnot : e.pad_count ∉ e.srcpads := fun h =>
    absurd (hI.fresh t e he _ h) (lt_irrefl _)
  have herase : (e.srcpads ++ [e.pad_count]).erase e.pad_count = e.srcpads := by
    rw [List.erase_append_right _ hnot]
    simp
  have htar : pad.target = none := by
    obtain ⟨d1, h1, h2, _⟩ := hI.src_ok i pad hp
    rw [hd] at h1
    cases h1
    cases hta : pad.target with
    | none => rfl
    | some x =>
      have : d.state = LINKED := h2.1 (by simp [hta])
      rw [hs] at this
      cases this
  have hpad : ({ pad with target := none } : SrcGhostPad) = pad := by
    cases pad
    simp only at htar
    simp [htar]
  rw [herase, hpad, set_same _ _ _ hp]

/-- Using up a pad number of a child keeps the invariant. -/
theorem wf_bump (s : KmsAgnosticBin3) (hI : WellFormed s) (t : Nat) (e : AgnosticBin)
    (he : s.children[t]? = some e) :
    WellFormed
      { s with children := s.children.set t { e with pad_count := e.pad_count + 1 } } := by
  have hlt : t < s.children.length := (List.getElem?_eq_some_iff.1 he).1
  have hout : ∀ x, outputs
      { s with children := s.children.set t { e with pad_count := e.pad_count + 1 } } x
        = outputs s x := by
    intro x
    have := outputs_set s t { e with pad_count := e.pad_count + 1 } x s.srcpads hlt
    rw [this]
    by_cases hx : t = x
    · subst hx
      simp [outputs, he]
    · simp [hx]
  constructor
  · intro j pj hj
    obtain ⟨dj, h1, h2, h3⟩ := hI.src_ok j pj hj
    refine ⟨dj, h1, h2, ?_⟩
    intro tj htj
    obtain ⟨a, b, c⟩ := h3 tj htj
    exact ⟨a, by rw [hout]; exact b, c⟩
  · intro k1 sink1 hk1
    obtain ⟨t1, a, b, c⟩ := hI.sink_ok k1 sink1 hk1
    exact ⟨t1, a, by simpa using b, c⟩
  · intro e1 c1 hc1 p hp1
    simp only [List.getElem?_set] at hc1
    by_cases hx : t = e1
    · simp only [hx, if_true] at hc1
      subst hx
      simp only [hlt, if_true] at hc1
      cases hc1
      exact Nat.lt_succ_of_lt (hI.fresh t e he p hp1)
    · simp only [hx, if_false] at hc1
      exact hI.fresh e1 c1 hc1 p hp1
  · exact hI.uniq

/-- Re-evaluating a source pad keeps the invariant. -/
theorem wf_link (s : KmsAgnosticBin3) (hI : WellFormed s) (i k : Nat) (ok : Bool) :
    WellFormed (link_pending_src_pads s i k ok) := by
  rcases link_cases s i k ok with h | ⟨sink, pad, d, t, hk, hp, hpe, hd, hs, ht⟩
  · rw [h]
    exact hI
  · obtain ⟨t0, ht0, hlt, _⟩ := hI.sink_ok k sink hk
    rw [ht] at ht0
    cases ht0
    obtain ⟨e, he⟩ : ∃ e, s.children[t]? = some e :=
      ⟨s.children[t], List.getElem?_eq_getElem hlt⟩
    cases ok
    · rw [link_failure_wf s hI i k sink pad d t e hk hp hpe hd hs ht he]
      exact wf_bump s hI t e he
    · rw [link_success s i k sink pad d t e hk hp hpe hd hs ht he]
      exact inv_link_success s hI i k sink pad d t e hk hp ht he

/-- A property kept by every step of a fold is kept by the fold. -/
theorem foldl_keeps {α β : Type} (P : α → Prop) (f : α → β → α)
    (h : ∀ a b, P a → P (f a b)) (l : List β) (a : α) (ha : P a) :
    P (l.foldl f a) := by
  induction l generalizing a with
  | nil => exact ha
  | cons b l ih => exact ih (f a b) (h a b ha)

/-- The probe of a sink pad keeps the invariant. -/
theorem wf_probe (s : KmsAgnosticBin3) (hI : WellFormed s) (k : Nat) (ev : GstEvent)
    (ok : Nat → Bool) : WellFormed (kms_agnostic_bin3_sink_caps_probe s k ev ok) := by
  unfold kms_agnostic_bin3_sink_caps_probe
  cases ev with
  | other => exact hI
  | caps c =>
    cases c with
    | none => exact hI
    | some c =>
      exact foldl_keeps WellFormed _ (fun a b ha => wf_link a ha b k (ok b)) _ s hI

/-! ## The request functions in closed form -/

/-- The loop of `get_compatible_transcoder_tree` never finds anything. -/
theorem get_compatible_none (s : KmsAgnosticBin3) (caps : GstCaps) :
    kms_agnostic_bin3_get_compatible_transcoder_tree s caps = none := by
  unfold kms_agnostic_bin3_get_compatible_transcoder_tree
  induction s.agnosticbins with
  | nil => rfl
  | cons a l ih => simp

theorem without_caps_eq (s : KmsAgnosticBin3) :
    kms_agnostic_bin3_create_src_pad_without_caps s =
      (with_new_src_pad s { state := UNCONFIGURED, caps := none }, s.srcpads.length) := by
  unfold kms_agnostic_bin3_create_src_pad_without_caps
    kms_agnostic_bin3_append_pending_src_pad kms_agnostic_bin3_create_new_src_pad
    with_new_src_pad new_src_pad create_src_pad_data g_atomic_int_add
  have e1 : ∀ c, paused_or_above { s with src_pad_count := c } = paused_or_above s :=
    fun _ => rfl
  simp only [e1]
  cases paused_or_above s <;> simp

theorem with_caps_eq (s : KmsAgnosticBin3) (caps : GstCaps) (signal : Option Bool) :
    kms_agnostic_bin3_create_src_pad_with_caps s caps signal =
      (with_new_src_pad s
        { state := if signal.getD false = true then WAITING else CONFIGURED,
          caps := some caps },
        some s.srcpads.length) := by
  unfold kms_agnostic_bin3_create_src_pad_with_caps
  rw [get_compatible_none]
  unfold kms_agnostic_bin3_create_src_pad_with_transcodification
    kms_agnostic_bin3_append_pending_src_pad kms_agnostic_bin3_create_new_src_pad
    with_new_src_pad new_src_pad create_src_pad_data g_atomic_int_add
  have e1 : ∀ c, paused_or_above { s with src_pad_count := c } = paused_or_above s :=
    fun _ => rfl
  cases hr : signal.getD false <;> cases hq : paused_or_above s <;> simp [e1, hq]

theorem request_sink_eq (s : KmsAgnosticBin3) :
    kms_agnostic_bin3_request_sink_pad s = (with_new_sink_pad s, s.sinkpads.length) := by
  unfold kms_agnostic_bin3_request_sink_pad with_new_sink_pad g_atomic_int_add
  have e1 : ∀ c, paused_or_above { s with children := c } = paused_or_above s :=
    fun _ => rfl
  simp only [e1]
  cases paused_or_above s <;> simp

theorem wf_new_src (s : KmsAgnosticBin3) (hI : WellFormed s) (d : KmsSrcPadData)
    (hd : d.state ≠ LINKED) : WellFormed (with_new_src_pad s d) := by
  have hget : ∀ (j : Nat) (pj : SrcGhostPad),
      (with_new_src_pad s d).srcpads[j]? = some pj →
      s.srcpads[j]? = some pj ∨ pj = new_src_pad s d := by
    intro j pj hj
    simp only [with_new_src_pad, List.getElem?_append] at hj
    by_cases hl : j < s.srcpads.length
    · simp only [hl, if_true] at hj
      exact Or.inl hj
    · simp only [hl, if_false] at hj
      cases hjj : j - s.srcpads.length with
      | zero =>
        rw [hjj] at hj
        simp at hj
        exact Or.inr hj.symm
      | succ n =>
        rw [hjj] at hj
        simp at hj
  constructor
  · intro j pj hj
    rcases hget j pj hj with h | h
    · exact hI.src_ok j pj h
    · subst h
      refine ⟨d, rfl, ?_, ?_⟩
      · simp [new_src_pad, hd]
      · intro t ht
        simp [new_src_pad] at ht
  · exact hI.sink_ok
  · exact hI.fresh
  · intro a b pa pb t hab ha hb hta
    rcases hget a pa ha with h1 | h1
    · rcases hget b pb hb with h2 | h2
      · exact hI.uniq a b pa pb t hab h1 h2 hta
      · subst h2
        simp [new_src_pad]
    · subst h1
      simp [new_src_pad] at hta

theorem wf_new_sink (s : KmsAgnosticBin3) (hI : WellFormed s) :
    WellFormed (with_new_sink_pad s) := by
  have hout : ∀ e p, p ∈ outputs s e → p ∈ outputs (with_new_sink_pad s) e := by
    intro e p h
    obtain ⟨c, hc, hpc⟩ := mem_outputs_lt s e p h
    have hl : e < s.children.length := (List.getElem?_eq_some_iff.1 hc).1
    simp [outputs, with_new_sink_pad, List.getElem?_append_left hl, hc, hpc]
  have hsink : ∀ (k : Nat) (sink : SinkGhostPad), s.sinkpads[k]? = some sink →
      (with_new_sink_pad s).sinkpads[k]? = some sink := by
    intro k sink hk
    have hl : k < s.sinkpads.length := (List.getElem?_eq_some_iff.1 hk).1
    simp [with_new_sink_pad, List.getElem?_append_left hl, hk]
  constructor
  · intro j pj hj
    obtain ⟨dj, h1, h2, h3⟩ := hI.src_ok j pj hj
    refine ⟨dj, h1, h2, ?_⟩
    intro t ht
    obtain ⟨a, b, k, sink, hk, hs⟩ := h3 t ht
    exact ⟨List.mem_cons_of_mem _ a, hout _ _ b, k, sink, hsink k sink hk, hs⟩
  · intro k sink hk
    simp only [with_new_sink_pad, List.getElem?_append] at hk
    by_cases hl : k < s.sinkpads.length
    · simp only [hl, if_true] at hk
      obtain ⟨t, a, b, c⟩ := hI.sink_ok k sink hk
      refine ⟨t, a, ?_, ?_⟩
      · simp only [with_new_sink_pad, List.length_append, List.length_singleton]
        exact Nat.lt_succ_of_lt b
      · exact List.mem_cons_of_mem _ c
    · simp only [hl, if_false] at hk
      cases hkk : k - s.sinkpads.length with
      | zero =>
        rw [hkk] at hk
        simp at hk
        subst hk
        exact ⟨s.children.length, rfl, by simp [with_new_sink_pad],
          by simp [with_new_sink_pad]⟩
      | succ n =>
        rw [hkk] at hk
        simp at hk
  · intro e c hc p hp
    simp only [with_new_sink_pad, List.getElem?_append] at hc
    by_cases hl : e < s.children.length
    · simp only [hl, if_true] at hc
      exact hI.fresh e c hc p hp
    · simp only [hl, if_false] at hc
      cases hee : e - s.children.length with
      | zero =>
        rw [hee] at hc
        simp at hc
        subst hc
        simp at hp
      | succ n =>
        rw [hee] at hc
        simp at hc
  · exact hI.uniq

theorem wf_set_peer (s : KmsAgnosticBin3) (hI : WellFormed s) (i : Nat) (b : Bool) :
    WellFormed (set_peer s i b) := by
  unfold set_peer
  cases hp : s.srcpads[i]? with
  | none => exact hI
  | some pad =>
    have hil : i < s.srcpads.length := (List.getElem?_eq_some_iff.1 hp).1
    have hget : ∀ (j : Nat) (pj : SrcGhostPad),
        (s.srcpads.set i { pad with peer := b })[j]? = some pj →
        ∃ qj, s.srcpads[j]? = some qj ∧ qj.target = pj.target ∧ qj.data = pj.data := by
      intro j pj hj
      simp only [List.getElem?_set] at hj
      by_cases hij : i = j
      · simp only [hij, if_true] at hj
        subst hij
        simp only [hil, if_true] at hj
        cases hj
        exact ⟨pad, hp, rfl, rfl⟩
      · simp only [hij, if_false] at hj
        exact ⟨pj, hj, rfl, rfl⟩
    constructor
    · intro j pj hj
      obtain ⟨qj, hq, ht, hd⟩ := hget j pj hj
      rw [← ht, ← hd]
      exact hI.src_ok j qj hq
    · exact hI.sink_ok
    · exact hI.fresh
    · intro a c pa pc t hac ha hc hta
      obtain ⟨qa, hqa, hta1, _⟩ := hget a pa ha
      obtain ⟨qc, hqc, htc1, _⟩ := hget c pc hc
      rw [← htc1]
      exact hI.uniq a c qa qc t hac hqa hqc (hta1.trans hta)

theorem wf_step (s : KmsAgnosticBin3) (hI : WellFormed s) (c : Call) :
    WellFormed (step s c) := by
  cases c with
  | request_new_pad templ caps signal =>
    cases templ with
    | sink =>
      simp only [step, kms_agnostic_bin3_request_new_pad, request_sink_eq]
      exact wf_new_sink s hI
    | src =>
      cases caps with
      | none =>
        simp only [step, kms_agnostic_bin3_request_new_pad,
          kms_agnostic_bin3_request_src_pad, without_caps_eq]
        exact wf_new_src s hI _ (by simp)
      | some F =>
        simp only [step, kms_agnostic_bin3_request_new_pad,
          kms_agnostic_bin3_request_src_pad, with_caps_eq]
        refine wf_new_src s hI _ ?_
        cases signal.getD false <;> simp
    | other => exact hI
  | release_pad pad => exact hI
  | sink_event k ev ok => exact wf_probe s hI k ev ok
  | peer_link i b => exact wf_set_peer s hI i b
  | set_state a b c => exact ⟨hI.src_ok, hI.sink_ok, hI.fresh, hI.uniq⟩

theorem wf_run (s : KmsAgnosticBin3) (hI : WellFormed s) (calls : List Call) :
    WellFormed (run s calls) :=
  foldl_keeps WellFormed step (fun a c ha => wf_step a ha c) calls s hI

theorem wf_reachable (s : KmsAgnosticBin3) (h : Reachable s) : WellFormed s := by
  obtain ⟨calls, rfl⟩ := h
  exact wf_run _ inv_init calls

theorem reachable_step (s : KmsAgnosticBin3) (h : Reachable s) (c : Call) :
    Reachable (step s c) := by
  obtain ⟨calls, rfl⟩ := h
  exact ⟨calls ++ [c], by simp [run, List.foldl_append]⟩

theorem reachable_run (s : KmsAgnosticBin3) (h : Reachable s) (cs : List Call) :
    Reachable (run s cs) := by
  obtain ⟨calls, rfl⟩ := h
  exact ⟨calls ++ cs, by simp [run, List.foldl_append]⟩

/-! ## Decimal rendering is injective -/

theorem toDigitsCore_decimal (fuel : Nat) :
    ∀ (n : Nat) (ds : List Char), n < fuel →
      Nat.toDigitsCore 10 fuel n ds = decimal n ++ ds := by
  induction fuel with
  | zero => intro n ds h; exact absurd h (Nat.not_lt_zero _)
  | succ f ih =>
    intro n ds h
    unfold Nat.toDigitsCore
    by_cases hq : n / 10 = 0
    · simp only [hq, if_true]
      have hn : n < 10 := by omega
      by_cases h0 : n = 0
      · subst h0
        simp [decimal]
        rfl
      · have hpos : 0 < n := Nat.pos_of_ne_zero h0
        simp [decimal, h0, Nat.digits_def' (by norm_num : 1 < 10) hpos, hq]
    · simp only [hq, if_false]
      have hlt : n / 10 < f := by omega
      rw [ih (n / 10) _ hlt]
      have h0 : n ≠ 0 := by
        intro h0
        subst h0
        simp at hq
      have hpos : 0 < n := Nat.pos_of_ne_zero h0
      simp [decimal, h0, hq, Nat.digits_def' (by norm_num : 1 < 10) hpos]

theorem fmt_u_data (n : Nat) : (fmt_u n).data = decimal n := by
  have h := toDigitsCore_decimal (n + 1) n [] (Nat.lt_succ_self n)
  simp only [List.append_nil] at h
  show (Nat.repr n).data = decimal n
  unfold Nat.repr Nat.toDigits
  rw [h]
  rfl

theorem digitChar_inj : ∀ a < 10, ∀ b < 10, Nat.digitChar a = Nat.digitChar b → a = b := by
  decide

theorem map_digitChar_inj : ∀ (l1 l2 : List Nat), (∀ x ∈ l1, x < 10) → (∀ x ∈ l2, x < 10) →
    l1.map Nat.digitChar = l2.map Nat.digitChar → l1 = l2 := by
  intro l1
  induction l1 with
  | nil =>
    intro l2 _ _ h
    cases l2 with
    | nil => rfl
    | cons b l2 => simp at h
  | cons a l1 ih =>
    intro l2 h1 h2 h
    cases l2 with
    | nil => simp at h
    | cons b l2 =>
      simp only [List.map_cons, List.cons.injEq] at h
      have hab : a = b :=
        digitChar_inj a (h1 a (List.mem_cons_self _ _)) b (h2 b (List.mem_cons_self _ _)) h.1
      have hl : l1 = l2 :=
        ih l2 (fun x hx => h1 x (List.mem_cons_of_mem _ hx))
          (fun x hx => h2 x (List.mem_cons_of_mem _ hx)) h.2
      rw [hab, hl]

theorem decimal_ne_zero (n : Nat) (hn : n ≠ 0) : decimal n ≠ ['0'] := by
  intro h
  simp only [decimal, hn, if_false] at h
  have hne : Nat.digits 10 n ≠ [] := Nat.digits_ne_nil_iff_ne_zero.2 hn
  have hlast := Nat.getLast_digit_ne_zero 10 hn
  have h2 : (Nat.digits 10 n).reverse.map Nat.digitChar = [0].map Nat.digitChar := by
    rw [h]
    rfl
  have h3 := map_digitChar_inj _ _
    (fun x hx => Nat.digits_lt_base (by norm_num) (List.mem_reverse.1 hx))
    (fun x hx => by simp at hx; omega) h2
  have h4 : Nat.digits 10 n = [0] := by
    have := congrArg List.reverse h3
    simpa using this
  simp [h4] at hlast

theorem decimal_inj (n m : Nat) (h : decimal n = decimal m) : n = m := by
  by_cases hn : n = 0
  · by_cases hm : m = 0
    · rw [hn, hm]
    · exfalso
      apply decimal_ne_zero m hm
      rw [← h, hn]
      rfl
  · by_cases hm : m = 0
    · exfalso
      apply decimal_ne_zero n hn
      rw [h, hm]
      rfl
    · simp only [decimal, hn, hm, if_false] at h
      have h3 := map_digitChar_inj _ _
        (fun x hx => Nat.digits_lt_base (by norm_num) (List.mem_reverse.1 hx))
        (fun x hx => Nat.digits_lt_base (by norm_num) (List.mem_reverse.1 hx)) h
      have h4 : Nat.digits 10 n = Nat.digits 10 m := by
        have := congrArg List.reverse h3
        simpa using this
      exact Nat.digits_inj_iff.1 h4

theorem fmt_u_inj (n m : Nat) (h : fmt_u n = fmt_u m) : n = m :=
  decimal_inj n m (by rw [← fmt_u_data, ← fmt_u_data, h])

theorem sink_name_inj (n m : Nat) (h : AGNOSTICBIN3_SINK_PAD n = AGNOSTICBIN3_SINK_PAD m) :
    n = m := by
  apply fmt_u_inj
  have := congrArg String.data h
  simp only [AGNOSTICBIN3_SINK_PAD, String.data_append, List.append_cancel_left_eq] at this
  exact String.ext this

theorem src_name_inj (n m : Nat) (h : AGNOSTICBIN3_SRC_PAD n = AGNOSTICBIN3_SRC_PAD m) :
    n = m := by
  apply fmt_u_inj
  have := congrArg String.data h
  simp only [AGNOSTICBIN3_SRC_PAD, String.data_append, List.append_cancel_left_eq] at this
  exact String.ext this

theorem sink_name_ne_src (n m : Nat) : AGNOSTICBIN3_SINK_PAD n ≠ AGNOSTICBIN3_SRC_PAD m := by
  intro h
  have := congrArg String.data h
  simp [AGNOSTICBIN3_SINK_PAD, AGNOSTICBIN3_SRC_PAD, String.data_append] at this

/-! ## Pad names -/

theorem succ_mod_guint (c n : Nat) (h : c = n % GUINT_MOD) :
    (c + 1) % GUINT_MOD = (n + 1) % GUINT_MOD := by
  rw [h, Nat.add_mod, Nat.mod_mod, ← Nat.add_mod]

/-- Re-evaluation of a source pad keeps all names. -/
theorem link_src_names (s : KmsAgnosticBin3) (i k : Nat) (ok : Bool) :
    src_names (link_pending_src_pads s i k ok) = src_names s := by
  apply List.ext_getElem?
  intro j
  simp only [src_names, List.getElem?_map]
  cases hj : s.srcpads[j]? with
  | none =>
    have hl : s.srcpads.length ≤ j := List.getElem?_eq_none_iff.1 hj
    rw [← (link_frame s i k ok).2.2.2.2.2.2.2.1] at hl
    rw [List.getElem?_eq_none_iff.2 hl]
  | some p =>
    obtain ⟨q, hq, hn, _⟩ := link_keeps s i k ok j p hj
    rw [hq]
    simp [hn]

theorem named_link (s : KmsAgnosticBin3) (hN : Named s) (i k : Nat) (ok : Bool) :
    Named (link_pending_src_pads s i k ok) := by
  obtain ⟨_, f2, f3, _, _, _, f7, f8, _⟩ := link_frame s i k ok
  constructor
  · rw [f3, f7]
    exact hN.sink_count
  · rw [f2, f8]
    exact hN.src_count
  · rw [sink_names, f7]
    exact hN.sink_name
  · rw [link_src_names, f8]
    exact hN.src_name

theorem named_step (s : KmsAgnosticBin3) (hN : Named s) (c : Call) : Named (step s c) := by
  have hsrc : ∀ d : KmsSrcPadData, Named (with_new_src_pad s d) := by
    intro d
    constructor
    · exact hN.sink_count
    · simp only [with_new_src_pad, List.length_append, List.length_singleton]
      exact succ_mod_guint _ _ hN.src_count
    · exact hN.sink_name
    · have h := hN.src_name
      simp only [src_names] at h
      simp only [src_names, with_new_src_pad, List.map_append, List.length_append,
        List.length_singleton, List.range_succ, h, List.map_cons, List.map_nil, new_src_pad,
        hN.src_count]
  cases c with
  | request_new_pad templ caps signal =>
    cases templ with
    | sink =>
      simp only [step, kms_agnostic_bin3_request_new_pad, request_sink_eq]
      constructor
      · simp only [with_new_sink_pad, List.length_append, List.length_singleton]
        exact succ_mod_guint _ _ hN.sink_count
      · exact hN.src_count
      · have h := hN.sink_name
        simp only [sink_names] at h
        simp only [sink_names, with_new_sink_pad, List.map_append, List.length_append,
          List.length_singleton, List.range_succ, h, List.map_cons, List.map_nil,
          hN.sink_count]
      · exact hN.src_name
    | src =>
      cases caps with
      | none =>
        simp only [step, kms_agnostic_bin3_request_new_pad,
          kms_agnostic_bin3_request_src_pad, without_caps_eq]
        exact hsrc _
      | some F =>
        simp only [step, kms_agnostic_bin3_request_new_pad,
          kms_agnostic_bin3_request_src_pad, with_caps_eq]
        exact hsrc _
    | other => exact hN
  | release_pad pad => exact hN
  | sink_event k ev ok =>
    simp only [step, kms_agnostic_bin3_sink_caps_probe]
    cases ev with
    | other => exact hN
    | caps c =>
      cases c with
      | none => exact hN
      | some c =>
        exact foldl_keeps Named _ (fun a b ha => named_link a ha b k (ok b)) _ s hN
  | peer_link i b =>
    simp only [step, set_peer]
    cases hp : s.srcpads[i]? with
    | none => exact hN
    | some pad =>
      have hil : i < s.srcpads.length := (List.getElem?_eq_some_iff.1 hp).1
      have hnames : (s.srcpads.set i { pad with peer := b }).map (fun p => p.name)
          = s.srcpads.map (fun p => p.name) := by
        rw [List.map_set]
        apply set_same
        simp [hp]
      constructor
      · exact hN.sink_count
      · simp only [List.length_set]
        exact hN.src_count
      · exact hN.sink_name
      · simp only [src_names, hnames, List.length_set]
        exact hN.src_name
  | set_state a b c => exact ⟨hN.sink_count, hN.src_count, hN.sink_name, hN.src_name⟩

theorem named_init : Named kms_agnostic_bin3_init := by
  constructor <;> simp [kms_agnostic_bin3_init, sink_names, src_names]

theorem named_run (calls : List Call) : Named (run kms_agnostic_bin3_init calls) :=
  foldl_keeps Named step (fun a c ha => named_step a ha c) calls _ named_init

/-- Names made from distinct numbers below 2^32 are distinct. -/
theorem names_nodup (n m : Nat) (hn : n ≤ GUINT_MOD) (hm : m ≤ GUINT_MOD) :
    ((List.range n).map (fun k => AGNOSTICBIN3_SINK_PAD (k % GUINT_MOD)) ++
      (List.range m).map (fun k => AGNOSTICBIN3_SRC_PAD (k % GUINT_MOD))).Nodup := by
  rw [List.nodup_append]
  refine ⟨?_, ?_, ?_⟩
  · refine (List.nodup_range n).map_on ?_
    intro a ha b hb hab
    have ha1 : a < GUINT_MOD := lt_of_lt_of_le (List.mem_range.1 ha) hn
    have hb1 : b < GUINT_MOD := lt_of_lt_of_le (List.mem_range.1 hb) hn
    have := sink_name_inj _ _ hab
    rwa [Nat.mod_eq_of_lt ha1, Nat.mod_eq_of_lt hb1] at this
  · refine (List.nodup_range m).map_on ?_
    intro a ha b hb hab
    have ha1 : a < GUINT_MOD := lt_of_lt_of_le (List.mem_range.1 ha) hm
    have hb1 : b < GUINT_MOD := lt_of_lt_of_le (List.mem_range.1 hb) hm
    have := src_name_inj _ _ hab
    rwa [Nat.mod_eq_of_lt ha1, Nat.mod_eq_of_lt hb1] at this
  · intro x hx hy
    obtain ⟨a, _, ha⟩ := List.mem_map.1 hx
    obtain ⟨b, _, hb⟩ := List.mem_map.1 hy
    exact sink_name_ne_src _ _ (ha.trans hb.symm)

/-- Number of sink pads after `n` more sink requests. -/
theorem sinkpads_after_requests (n : Nat) : ∀ s : KmsAgnosticBin3,
    (run s (List.replicate n (Call.request_new_pad PadTemplate.sink none none))).sinkpads.length
      = s.sinkpads.length + n := by
  induction n with
  | zero => intro s; rfl
  | succ n ih =>
    intro s
    rw [List.replicate_succ]
    show (run (step s _) _).sinkpads.length = _
    rw [ih]
    simp only [step, kms_agnostic_bin3_request_new_pad, request_sink_eq, with_new_sink_pad,
      List.length_append, List.length_singleton]
    omega

/-! ## Pads that re-evaluation leaves alone -/

theorem link_inert_self (s : KmsAgnosticBin3) (i k : Nat) (ok : Bool) (p : SrcGhostPad)
    (hp : s.srcpads[i]? = some p) (hin : Inert p) :
    link_pending_src_pads s i k ok = s := by
  apply link_noop
  intro pad h
  rw [hp] at h
  cases h
  rcases hin with h | h
  · exact Or.inl h
  · exact Or.inr (Or.inr h)

/-- Re-evaluating any pad leaves an inert pad exactly as it was. -/
theorem link_inert (s : KmsAgnosticBin3) (i j k : Nat) (ok : Bool) (p : SrcGhostPad)
    (hp : s.srcpads[i]? = some p) (hin : Inert p) :
    (link_pending_src_pads s j k ok).srcpads[i]? = some p := by
  by_cases hji : j = i
  · subst hji
    rw [link_inert_self s j k ok p hp hin]
    exact hp
  · rw [link_other s j k ok i hji]
    exact hp

/-- A whole pass over any list of pads leaves an inert pad exactly as it was. -/
theorem pass_inert (k : Nat) (ok : Nat → Bool) (i : Nat) (p : SrcGhostPad) (hin : Inert p)
    (l : List Nat) (s : KmsAgnosticBin3) (hp : s.srcpads[i]? = some p) :
    (l.foldl (fun a j => link_pending_src_pads a j k (ok j)) s).srcpads[i]? = some p :=
  foldl_keeps (fun a => a.srcpads[i]? = some p) _
    (fun a j ha => link_inert a i j k (ok j) p ha hin) l s hp

/-- Skipping a pad on which the action does nothing does not change a fold. -/
theorem foldl_skip {α : Type} (P : α → Prop) (f : α → Nat → α) (i : Nat)
    (hP : ∀ a j, P a → P (f a j)) (hi : ∀ a, P a → f a i = a) (l : List Nat) :
    ∀ a, P a → l.foldl f a = (l.filter (fun j => decide (j ≠ i))).foldl f a := by
  induction l with
  | nil => intro a _; rfl
  | cons j l ih =>
    intro a ha
    by_cases hji : j = i
    · subst hji
      simp only [List.foldl_cons, hi a ha]
      rw [ih a ha]
      simp
    · simp only [List.foldl_cons]
      rw [ih (f a j) (hP a j ha)]
      simp [hji]

/-- Any call leaves state, declared caps and target of a pad past UNCONFIGURED
as they were; only its downstream peer may change. -/
theorem step_settled (s : KmsAgnosticBin3) (c : Call) (i : Nat) (p : SrcGhostPad)
    (d : KmsSrcPadData) (hp : s.srcpads[i]? = some p) (hd : p.data = some d)
    (hs : d.state ≠ UNCONFIGURED) :
    ∃ q, (step s c).srcpads[i]? = some q ∧ q.data = some d ∧ q.target = p.target ∧
      q.name = p.name := by
  have hil : i < s.srcpads.length := (List.getElem?_eq_some_iff.1 hp).1
  have happ : ∀ d1, (with_new_src_pad s d1).srcpads[i]? = some p := by
    intro d1
    simp [with_new_src_pad, List.getElem?_append_left hil, hp]
  cases c with
  | request_new_pad templ caps signal =>
    cases templ with
    | sink =>
      simp only [step, kms_agnostic_bin3_request_new_pad, request_sink_eq]
      exact ⟨p, hp, hd, rfl, rfl⟩
    | src =>
      cases caps with
      | none =>
        simp only [step, kms_agnostic_bin3_request_new_pad,
          kms_agnostic_bin3_request_src_pad, without_caps_eq]
        exact ⟨p, happ _, hd, rfl, rfl⟩
      | some F =>
        simp only [step, kms_agnostic_bin3_request_new_pad,
          kms_agnostic_bin3_request_src_pad, with_caps_eq]
        exact ⟨p, happ _, hd, rfl, rfl⟩
    | other => exact ⟨p, hp, hd, rfl, rfl⟩
  | release_pad pad => exact ⟨p, hp, hd, rfl, rfl⟩
  | sink_event k ev ok =>
    simp only [step, kms_agnostic_bin3_sink_caps_probe]
    cases ev with
    | other => exact ⟨p, hp, hd, rfl, rfl⟩
    | caps c =>
      cases c with
      | none => exact ⟨p, hp, hd, rfl, rfl⟩
      | some c =>
        exact ⟨p, pass_inert k ok i p (Or.inr ⟨d, hd, hs⟩) _ s hp, hd, rfl, rfl⟩
  | peer_link j b =>
    simp only [step, set_peer]
    cases hj : s.srcpads[j]? with
    | none => exact ⟨p, hp, hd, rfl, rfl⟩
    | some pj =>
      by_cases hji : j = i
      · subst hji
        rw [hp] at hj
        cases hj
        exact ⟨{ p with peer := b }, by simp [List.getElem?_set, hil], hd, rfl, rfl⟩
      · exact ⟨p, by simp [List.getElem?_set, hji, hp], hd, rfl, rfl⟩
  | set_state a b c => exact ⟨p, hp, hd, rfl, rfl⟩

/-- Any sequence of calls leaves state, declared caps and target of a pad past
UNCONFIGURED as they were. -/
theorem run_settled (calls : List Call) : ∀ (s : KmsAgnosticBin3) (i : Nat)
    (p : SrcGhostPad) (d : KmsSrcPadData), s.srcpads[i]? = some p → p.data = some d →
    d.state ≠ UNCONFIGURED →
    ∃ q, (run s calls).srcpads[i]? = some q ∧ q.data = some d ∧ q.target = p.target ∧
      q.name = p.name := by
  induction calls with
  | nil => intro s i p d hp hd _; exact ⟨p, hp, hd, rfl, rfl⟩
  | cons c cs ih =>
    intro s i p d hp hd hs
    obtain ⟨q, hq, hqd, hqt, hqn⟩ := step_settled s c i p d hp hd hs
    obtain ⟨r, hr, hrd, hrt, hrn⟩ := ih (step s c) i q d hq hqd hs
    exact ⟨r, hr, hrd, hrt.trans hqt, hrn.trans hqn⟩

/-- Reading `src_state` back into the pad. -/
theorem src_state_some (s : KmsAgnosticBin3) (i : Nat) (st : KmsSrcPadState)
    (h : src_state s i = some st) :
    ∃ p d, s.srcpads[i]? = some p ∧ p.data = some d ∧ d.state = st := by
  unfold src_state at h
  cases hp : s.srcpads[i]? with
  | none => simp [hp] at h
  | some p =>
    cases hd : p.data with
    | none => simp [hp, hd] at h
    | some d =>
      simp [hp, hd] at h
      exact ⟨p, d, rfl, hd, h⟩

/-- A child never takes back a pad number: re-evaluation only raises counters. -/
theorem link_count_mono (s : KmsAgnosticBin3) (i k : Nat) (ok : Bool) (e : Nat)
    (c : AgnosticBin) (hc : s.children[e]? = some c) :
    ∃ c1, (link_pending_src_pads s i k ok).children[e]? = some c1 ∧
      c.pad_count ≤ c1.pad_count := by
  have hel : e < s.children.length := (List.getElem?_eq_some_iff.1 hc).1
  rcases link_cases s i k ok with h | ⟨sink, pad, d, t, hk, hp, hpe, hd, hs, ht⟩
  · rw [h]
    exact ⟨c, hc, le_refl _⟩
  · cases he : s.children[t]? with
    | none =>
      rw [link_dangling s i k ok sink pad d t hk hp hpe hd hs ht he]
      exact ⟨c, hc, le_refl _⟩
    | some e0 =>
      by_cases hte : t = e
      · subst hte
        rw [hc] at he
        cases he
        cases ok
        · rw [link_failure s i k sink pad d t c hk hp hpe hd hs ht hc]
          refine ⟨{ pad_count := c.pad_count + 1,
                    srcpads := (c.srcpads ++ [c.pad_count]).erase c.pad_count }, ?_,
                  Nat.le_succ _⟩
          simp [List.getElem?_set, hel]
        · rw [link_success s i k sink pad d t c hk hp hpe hd hs ht hc]
          refine ⟨{ pad_count := c.pad_count + 1, srcpads := c.srcpads ++ [c.pad_count] }, ?_,
                  Nat.le_succ _⟩
          simp [List.getElem?_set, hel]
      · cases ok
        · rw [link_failure s i k sink pad d t e0 hk hp hpe hd hs ht he]
          exact ⟨c, by simp [List.getElem?_set, hte, hc], le_refl _⟩
        · rw [link_success s i k sink pad d t e0 hk hp hpe hd hs ht he]
          exact ⟨c, by simp [List.getElem?_set, hte, hc], le_refl _⟩

theorem pass_count_mono (k : Nat) (ok : Nat → Bool) (e : Nat) (c : AgnosticBin)
    (l : List Nat) (s : KmsAgnosticBin3) (hc : s.children[e]? = some c) :
    ∃ c1, (l.foldl (fun a j => link_pending_src_pads a j k (ok j)) s).children[e]? = some c1 ∧
      c.pad_count ≤ c1.pad_count :=
  foldl_keeps (fun a => ∃ c1, a.children[e]? = some c1 ∧ c.pad_count ≤ c1.pad_count) _
    (fun a j ⟨c1, h1, h2⟩ => by
      obtain ⟨c2, h3, h4⟩ := link_count_mono a j k (ok j) e c1 h1
      exact ⟨c2, h3, le_trans h2 h4⟩) l s ⟨c, hc, le_refl _⟩

theorem pass_sinkpads (k : Nat) (ok : Nat → Bool) (l : List Nat) (s : KmsAgnosticBin3) :
    (l.foldl (fun a j => link_pending_src_pads a j k (ok j)) s).sinkpads = s.sinkpads :=
  foldl_keeps (fun a => a.sinkpads = s.sinkpads) _
    (fun a j ha => ((link_frame a j k (ok j)).2.2.2.2.2.2.1).trans ha) l s rfl

theorem pass_wf (k : Nat) (ok : Nat → Bool) (l : List Nat) (s : KmsAgnosticBin3)
    (hI : WellFormed s) :
    WellFormed (l.foldl (fun a j => link_pending_src_pads a j k (ok j)) s) :=
  foldl_keeps WellFormed _ (fun a j ha => wf_link a ha j k (ok j)) l s hI

/-- A pass over pads other than `i` leaves pad `i` as it was. -/
theorem pass_other (k : Nat) (ok : Nat → Bool) (i : Nat) (l : List Nat) (hl : i ∉ l)
    (s : KmsAgnosticBin3) :
    (l.foldl (fun a j => link_pending_src_pads a j k (ok j)) s).srcpads[i]? = s.srcpads[i]? := by
  induction l generalizing s with
  | nil => rfl
  | cons j l ih =>
    simp only [List.foldl_cons]
    rw [ih (fun h => hl (List.mem_cons_of_mem _ h))]
    exact link_other s j k (ok j) i (fun h => hl (h ▸ List.mem_cons_self _ _))

theorem step_lengths (s : KmsAgnosticBin3) (c : Call) :
    s.sinkpads.length ≤ (step s c).sinkpads.length ∧
      s.srcpads.length ≤ (step s c).srcpads.length := by
  cases c with
  | request_new_pad templ caps signal =>
    cases templ with
    | sink =>
      simp [step, kms_agnostic_bin3_request_new_pad, request_sink_eq, with_new_sink_pad]
    | src =>
      cases caps with
      | none =>
        simp [step, kms_agnostic_bin3_request_new_pad, kms_agnostic_bin3_request_src_pad,
          without_caps_eq, with_new_src_pad]
      | some F =>
        simp [step, kms_agnostic_bin3_request_new_pad, kms_agnostic_bin3_request_src_pad,
          with_caps_eq, with_new_src_pad]
    | other => exact ⟨le_refl _, le_refl _⟩
  | release_pad pad => exact ⟨le_refl _, le_refl _⟩
  | sink_event k ev ok =>
    simp only [step, kms_agnostic_bin3_sink_caps_probe]
    cases ev with
    | other => exact ⟨le_refl _, le_refl _⟩
    | caps c =>
      cases c with
      | none => exact ⟨le_refl _, le_refl _⟩
      | some c =>
        exact foldl_keeps
          (fun a => s.sinkpads.length ≤ a.sinkpads.length ∧
            s.srcpads.length ≤ a.srcpads.length) _
          (fun a j ha => by
            obtain ⟨_, _, _, _, _, _, f7, f8, _⟩ := link_frame a j k (ok j)
            rw [f7, f8]
            exact ha) _ s ⟨le_refl _, le_refl _⟩
  | peer_link i b =>
    simp only [step, set_peer]
    cases hp : s.srcpads[i]? with
    | none => exact ⟨le_refl _, le_refl _⟩
    | some pad => simp
  | set_state a b c => exact ⟨le_refl _, le_refl _⟩

theorem run_lengths (calls : List Call) : ∀ s : KmsAgnosticBin3,
    s.sinkpads.length ≤ (run s calls).sinkpads.length ∧
      s.srcpads.length ≤ (run s calls).srcpads.length := by
  induction calls with
  | nil => intro s; exact ⟨le_refl _, le_refl _⟩
  | cons c cs ih =>
    intro s
    obtain ⟨a, b⟩ := step_lengths s c
    obtain ⟨a1, b1⟩ := ih (step s c)
    exact ⟨le_trans a a1, le_trans b b1⟩

theorem run_append (s : KmsAgnosticBin3) (a b : List Call) :
    run s (a ++ b) = run (run s a) b := by
  simp [run, List.foldl_append]

/-- Entry `k` of a list of names made from the positions. -/
theorem names_get (f : Nat → String) (n m k : Nat) (x : String) (hnm : n ≤ m)
    (h : ((List.range n).map f)[k]? = some x) : ((List.range m).map f)[k]? = some x := by
  rw [List.getElem?_map] at h ⊢
  cases hk : (List.range n)[k]? with
  | none => simp [hk] at h
  | some v =>
    have hkn : k < n := by
      have := (List.getElem?_eq_some_iff.1 hk).1
      simpa using this
    have hv : v = k := by
      rw [List.getElem?_range hkn] at hk
      cases hk
      rfl
    rw [hk] at h
    rw [List.getElem?_range (lt_of_lt_of_le hkn hnm)]
    rw [hv] at h
    exact h

/-! ## The claims -/

/-- C1: for every connector and every declared caps `F`, a source pad request
with caps returns a new pad whose state is WAITING when the "caps" signal
answered true and CONFIGURED when it answered false or nobody answered; the
state is neither UNCONFIGURED nor LINKED, and the declared caps are `F`. -/
theorem C1_with_caps_waiting_or_configured (self : KmsAgnosticBin3) (F : GstCaps)
    (signal : Option Bool) :
    ∃ s1 : KmsAgnosticBin3,
      kms_agnostic_bin3_create_src_pad_with_caps self F signal
        = (s1, some self.srcpads.length) ∧
      kms_agnostic_bin3_request_new_pad self PadTemplate.src (some F) signal
        = (s1, some (GstPadRef.src self.srcpads.length)) ∧
      s1.srcpads.length = self.srcpads.length + 1 ∧
      src_state s1 self.srcpads.length
        = some (if signal = some true then WAITING else CONFIGURED) ∧
      src_state s1 self.srcpads.length ≠ some UNCONFIGURED ∧
      src_state s1 self.srcpads.length ≠ some LINKED ∧
      src_caps s1 self.srcpads.length = some F := by
  refine ⟨_, with_caps_eq self F signal, ?_, ?_, ?_, ?_, ?_, ?_⟩
  · simp [kms_agnostic_bin3_request_new_pad, kms_agnostic_bin3_request_src_pad, with_caps_eq]
  · simp [with_new_src_pad]
  · rcases signal with _ | _ | _ <;>
      simp [src_state, with_new_src_pad, new_src_pad]
  · rcases signal with _ | _ | _ <;>
      simp [src_state, with_new_src_pad, new_src_pad]
  · rcases signal with _ | _ | _ <;>
      simp [src_state, with_new_src_pad, new_src_pad]
  · simp [src_caps, with_new_src_pad, new_src_pad]

/-- C2: for every connector, a source pad request without caps returns a new
pad that is UNCONFIGURED, has no declared caps and no target; the pads that
existed, the sink pads, the children and the registered agnosticbins are
unchanged. -/
theorem C2_without_caps_unconfigured (self : KmsAgnosticBin3) :
    ∃ (s1 : KmsAgnosticBin3) (pad : SrcGhostPad),
      kms_agnostic_bin3_create_src_pad_without_caps self = (s1, self.srcpads.length) ∧
      kms_agnostic_bin3_request_new_pad self PadTemplate.src none none
        = (s1, some (GstPadRef.src self.srcpads.length)) ∧
      s1.srcpads = self.srcpads ++ [pad] ∧
      pad.data = some { state := UNCONFIGURED, caps := none } ∧
      pad.target = none ∧ pad.peer = false ∧
      src_state s1 self.srcpads.length = some UNCONFIGURED ∧
      src_caps s1 self.srcpads.length = none ∧
      src_target s1 self.srcpads.length = none ∧
      s1.agnosticbins = self.agnosticbins ∧ s1.children = self.children ∧
      s1.sinkpads = self.sinkpads := by
  refine ⟨_, new_src_pad self { state := UNCONFIGURED, caps := none },
    without_caps_eq self, ?_, rfl, rfl, rfl, rfl, ?_, ?_, ?_, rfl, rfl, rfl⟩
  · simp [kms_agnostic_bin3_request_new_pad, kms_agnostic_bin3_request_src_pad,
      without_caps_eq]
  · simp [src_state, with_new_src_pad, new_src_pad]
  · simp [src_caps, with_new_src_pad, new_src_pad]
  · simp [src_target, with_new_src_pad, new_src_pad]

/-- C3, as stated, fails: after 2^32 + 1 sink pad requests on a fresh connector
the sink pad number 2^32 is named "sink_0", the name of sink pad number 0, and
not "sink_4294967296". -/
theorem C3_name_reused_after_wrap :
    (sink_names (run kms_agnostic_bin3_init many_sink_requests))[GUINT_MOD]? = some "sink_0" ∧
    (sink_names (run kms_agnostic_bin3_init many_sink_requests))[0]? = some "sink_0" ∧
    AGNOSTICBIN3_SINK_PAD GUINT_MOD ≠ "sink_0" := by
  have hlen : (run kms_agnostic_bin3_init many_sink_requests).sinkpads.length
      = GUINT_MOD + 1 := by
    unfold many_sink_requests
    rw [sinkpads_after_requests]
    simp [kms_agnostic_bin3_init]
  have hpos : 0 < GUINT_MOD := by
    unfold GUINT_MOD
    norm_num
  have hnames := (named_run many_sink_requests).sink_name
  rw [hlen] at hnames
  have h0 : AGNOSTICBIN3_SINK_PAD 0 = "sink_0" := by decide
  refine ⟨?_, ?_, ?_⟩
  · rw [hnames, List.getElem?_map, List.getElem?_range (Nat.lt_succ_self _)]
    simp only [Option.map_some', Nat.mod_self]
    rw [h0]
  · rw [hnames, List.getElem?_map, List.getElem?_range (Nat.succ_pos _)]
    simp only [Option.map_some', Nat.zero_mod]
    rw [h0]
  · intro h
    rw [← h0] at h
    have := sink_name_inj _ _ h
    omega

/-- C3, amended: after any sequence of calls on a fresh connector the sink pad
at position `k` is named "sink_" followed by `k mod 2^32` and the source pad at
position `k` is named "src_" followed by `k mod 2^32`; a request returns the
pad at the next position; while at most 2^32 pads of each direction exist all
names are pairwise distinct; and further calls, releases included, neither
rename nor remove a pad. -/
theorem C3_names_follow_counters (calls : List Call) :
    sink_names (run kms_agnostic_bin3_init calls) =
      (List.range (run kms_agnostic_bin3_init calls).sinkpads.length).map
        (fun k => AGNOSTICBIN3_SINK_PAD (k % GUINT_MOD)) ∧
    src_names (run kms_agnostic_bin3_init calls) =
      (List.range (run kms_agnostic_bin3_init calls).srcpads.length).map
        (fun k => AGNOSTICBIN3_SRC_PAD (k % GUINT_MOD)) ∧
    (∀ (caps : Option GstCaps) (signal : Option Bool),
      (kms_agnostic_bin3_request_new_pad (run kms_agnostic_bin3_init calls)
          PadTemplate.sink caps signal).2
        = some (GstPadRef.sink (run kms_agnostic_bin3_init calls).sinkpads.length) ∧
      (kms_agnostic_bin3_request_new_pad (run kms_agnostic_bin3_init calls)
          PadTemplate.src caps signal).2
        = some (GstPadRef.src (run kms_agnostic_bin3_init calls).srcpads.length)) ∧
    ((run kms_agnostic_bin3_init calls).sinkpads.length ≤ GUINT_MOD →
      (run kms_agnostic_bin3_init calls).srcpads.length ≤ GUINT_MOD →
      (sink_names (run kms_agnostic_bin3_init calls) ++
        src_names (run kms_agnostic_bin3_init calls)).Nodup) ∧
    (∀ (more : List Call) (k : Nat) (x : String),
      ((sink_names (run kms_agnostic_bin3_init calls))[k]? = some x →
        (sink_names (run (run kms_agnostic_bin3_init calls) more))[k]? = some x) ∧
      ((src_names (run kms_agnostic_bin3_init calls))[k]? = some x →
        (src_names (run (run kms_agnostic_bin3_init calls) more))[k]? = some x)) := by
  have hN := named_run calls
  refine ⟨hN.sink_name, hN.src_name, ?_, ?_, ?_⟩
  · intro caps signal
    constructor
    · simp [kms_agnostic_bin3_request_new_pad, request_sink_eq]
    · cases caps with
      | none =>
        simp [kms_agnostic_bin3_request_new_pad, kms_agnostic_bin3_request_src_pad,
          without_caps_eq]
      | some F =>
        simp [kms_agnostic_bin3_request_new_pad, kms_agnostic_bin3_request_src_pad,
          with_caps_eq]
  · intro h1 h2
    rw [hN.sink_name, hN.src_name]
    exact names_nodup _ _ h1 h2
  · intro more k x
    have hM := named_run (calls ++ more)
    rw [run_append] at hM
    obtain ⟨l1, l2⟩ := run_lengths more (run kms_agnostic_bin3_init calls)
    constructor
    · intro h
      rw [hN.sink_name] at h
      rw [hM.sink_name]
      exact names_get _ _ _ k x l1 h
    · intro h
      rw [hN.src_name] at h
      rw [hM.src_name]
      exact names_get _ _ _ k x l2 h

theorem C3_names_follow_counters_witness :
    (sink_names (run kms_agnostic_bin3_init demo_calls) ++
      src_names (run kms_agnostic_bin3_init demo_calls)).Nodup ∧
    sink_names (run kms_agnostic_bin3_init demo_calls) = ["sink_0", "sink_1"] ∧
    src_names (run kms_agnostic_bin3_init demo_calls) = ["src_0", "src_1", "src_2"] :=
  ⟨(C3_names_follow_counters demo_calls).2.2.2.1 (by decide) (by decide),
    by decide, by decide⟩

/-- C4, as stated, fails: in scenario B the source pad is CONFIGURED, not
LINKED, after the caps arrived; it has no target and the child behind the sink
pad has no request pad. -/
theorem C4_configured_not_linked :
    src_state (run kms_agnostic_bin3_init scenario_B) 0 = some CONFIGURED ∧
    src_state (run kms_agnostic_bin3_init scenario_B) 0 ≠ some LINKED ∧
    src_target (run kms_agnostic_bin3_init scenario_B) 0 = none ∧
    outputs (run kms_agnostic_bin3_init scenario_B) 0 = [] := by
  decide

/-- C4, amended: on any connector, a source pad requested with caps `F` that no
handler claims is CONFIGURED at once; after caps arrive on any sink pad `k`,
whether or not the pad has a downstream peer and whatever the outcome of target
links, it is still CONFIGURED with caps `F` and without target, and
re-evaluating it changes nothing in the connector. -/
theorem C4_configured_stays_configured (s : KmsAgnosticBin3) (F F2 : GstCaps)
    (signal : Option Bool) (hsig : signal ≠ some true) (k : Nat) (peer : Bool)
    (link_ok : Nat → Bool) :
    src_state (kms_agnostic_bin3_create_src_pad_with_caps s F signal).1 s.srcpads.length
      = some CONFIGURED ∧
    src_state
      (run (kms_agnostic_bin3_create_src_pad_with_caps s F signal).1
        [Call.peer_link s.srcpads.length peer,
         Call.sink_event k (GstEvent.caps (some F2)) link_ok]) s.srcpads.length
      = some CONFIGURED ∧
    src_caps
      (run (kms_agnostic_bin3_create_src_pad_with_caps s F signal).1
        [Call.peer_link s.srcpads.length peer,
         Call.sink_event k (GstEvent.caps (some F2)) link_ok]) s.srcpads.length
      = some F ∧
    src_target
      (run (kms_agnostic_bin3_create_src_pad_with_caps s F signal).1
        [Call.peer_link s.srcpads.length peer,
         Call.sink_event k (GstEvent.caps (some F2)) link_ok]) s.srcpads.length
      = none ∧
    (∀ (s1 : KmsAgnosticBin3) (ok : Bool),
      src_state s1 s.srcpads.length = some CONFIGURED →
      link_pending_src_pads s1 s.srcpads.length k ok = s1) := by
  have hget : signal.getD false = false := by
    rcases signal with _ | _ | _
    · rfl
    · rfl
    · exact absurd rfl hsig
  rw [with_caps_eq, hget]
  simp only [Bool.false_eq_true, if_false]
  have hp : (with_new_src_pad s { state := CONFIGURED, caps := some F }).srcpads[s.srcpads.length]?
      = some (new_src_pad s { state := CONFIGURED, caps := some F }) := by
    simp [with_new_src_pad]
  obtain ⟨q, hq, hqd, hqt, _⟩ := run_settled
    [Call.peer_link s.srcpads.length peer, Call.sink_event k (GstEvent.caps (some F2)) link_ok]
    _ _ _ _ hp rfl (by simp)
  refine ⟨?_, ?_, ?_, ?_, ?_⟩
  · simp [src_state, hp, new_src_pad]
  · simp [src_state, hq, hqd]
  · simp [src_caps, hq, hqd]
  · simp [src_target, hq, hqt, new_src_pad]
  · intro s1 ok h
    obtain ⟨p, d, h1, h2, h3⟩ := src_state_some s1 _ _ h
    exact link_inert_self s1 _ k ok p h1 (Or.inr ⟨d, h2, by simp [h3]⟩)

theorem C4_configured_stays_configured_witness :
    src_state
      (run (kms_agnostic_bin3_create_src_pad_with_caps
          (run kms_agnostic_bin3_init [Call.request_new_pad PadTemplate.sink none none])
          7 none).1
        [Call.peer_link 0 true,
         Call.sink_event 0 (GstEvent.caps (some 7)) (fun _ => true)]) 0
      = some CONFIGURED :=
  (C4_configured_stays_configured
    (run kms_agnostic_bin3_init [Call.request_new_pad PadTemplate.sink none none])
    7 7 none (by decide) 0 true (fun _ => true)).2.1

/-- C5, as stated, fails: in scenario A the source pad, which has a downstream
peer, is LINKED after the caps arrived, its target being request pad 0 of the
child behind the sink pad. -/
theorem C5_unconfigured_gets_linked :
    src_state (run kms_agnostic_bin3_init (scenario_A.take 3)) 0 = some UNCONFIGURED ∧
    src_state (run kms_agnostic_bin3_init scenario_A) 0 = some LINKED ∧
    src_state (run kms_agnostic_bin3_init scenario_A) 0 ≠ some UNCONFIGURED ∧
    src_target (run kms_agnostic_bin3_init scenario_A) 0 = some { element := 0, pad := 0 } ∧
    outputs (run kms_agnostic_bin3_init scenario_A) 0 = [0] := by
  decide

/-- The pass of the probe over all source pads, the last pad apart. -/
theorem probe_last (s : KmsAgnosticBin3) (k : Nat) (F : GstCaps) (ok : Nat → Bool) (n : Nat)
    (hn : s.srcpads.length = n + 1) :
    kms_agnostic_bin3_sink_caps_probe s k (GstEvent.caps (some F)) ok =
      link_pending_src_pads
        ((List.range n).foldl (fun a j => link_pending_src_pads a j k (ok j)) s) n k (ok n) := by
  simp [kms_agnostic_bin3_sink_caps_probe, kms_element_for_each_src_pad, hn,
    List.range_succ, List.foldl_append]

/-- C5, amended: on a reachable connector with sink pad `k`, a source pad
requested without caps is UNCONFIGURED.  When caps then arrive on the sink pad
and the source pad has no downstream peer, it is still UNCONFIGURED, has no
target, and the event is exactly the re-evaluation of the other source pads.
When the source pad has a downstream peer and linking its target succeeds, it
becomes LINKED and its target is a request pad of the child behind the sink
pad that did not exist before. -/
theorem C5_unconfigured_follows_peer (s : KmsAgnosticBin3) (hs : Reachable s) (k : Nat)
    (sink : SinkGhostPad) (hk : s.sinkpads[k]? = some sink) (F : GstCaps)
    (link_ok : Nat → Bool) :
    src_state (kms_agnostic_bin3_create_src_pad_without_caps s).1 s.srcpads.length
      = some UNCONFIGURED ∧
    (src_state
        (run (kms_agnostic_bin3_create_src_pad_without_caps s).1
          [Call.sink_event k (GstEvent.caps (some F)) link_ok]) s.srcpads.length
        = some UNCONFIGURED ∧
      src_target
        (run (kms_agnostic_bin3_create_src_pad_without_caps s).1
          [Call.sink_event k (GstEvent.caps (some F)) link_ok]) s.srcpads.length
        = none ∧
      run (kms_agnostic_bin3_create_src_pad_without_caps s).1
          [Call.sink_event k (GstEvent.caps (some F)) link_ok]
        = (List.range s.srcpads.length).foldl
            (fun a j => link_pending_src_pads a j k (link_ok j))
            (kms_agnostic_bin3_create_src_pad_without_caps s).1) ∧
    (link_ok s.srcpads.length = true →
      ∃ t p, sink.target = some t ∧
        src_state
          (run (kms_agnostic_bin3_create_src_pad_without_caps s).1
            [Call.peer_link s.srcpads.length true,
             Call.sink_event k (GstEvent.caps (some F)) link_ok]) s.srcpads.length
          = some LINKED ∧
        src_target
          (run (kms_agnostic_bin3_create_src_pad_without_caps s).1
            [Call.peer_link s.srcpads.length true,
             Call.sink_event k (GstEvent.caps (some F)) link_ok]) s.srcpads.length
          = some { element := t, pad := p } ∧
        p ∈ outputs
          (run (kms_agnostic_bin3_create_src_pad_without_caps s).1
            [Call.peer_link s.srcpads.length true,
             Call.sink_event k (GstEvent.caps (some F)) link_ok]) t ∧
        p ∉ outputs (kms_agnostic_bin3_create_src_pad_without_caps s).1 t) := by
  rw [without_caps_eq]
  simp only
  have hI := wf_reachable s hs
  have hI1 := wf_new_src s hI { state := UNCONFIGURED, caps := none } (by simp)
  have hlen : (with_new_src_pad s { state := UNCONFIGURED, caps := none }).srcpads.length
      = s.srcpads.length + 1 := by simp [with_new_src_pad]
  have hp : (with_new_src_pad s { state := UNCONFIGURED, caps := none }).srcpads[s.srcpads.length]?
      = some (new_src_pad s { state := UNCONFIGURED, caps := none }) := by
    simp [with_new_src_pad]
  have hnot : s.srcpads.length ∉ List.range s.srcpads.length := by simp
  refine ⟨?_, ?_, ?_⟩
  · simp [src_state, hp, new_src_pad]
  · -- no downstream peer
    have hrun : run (with_new_src_pad s { state := UNCONFIGURED, caps := none })
          [Call.sink_event k (GstEvent.caps (some F)) link_ok]
        = (List.range s.srcpads.length).foldl
            (fun a j => link_pending_src_pads a j k (link_ok j))
            (with_new_src_pad s { state := UNCONFIGURED, caps := none }) := by
      show kms_agnostic_bin3_sink_caps_probe _ k (GstEvent.caps (some F)) link_ok = _
      rw [probe_last _ k F link_ok s.srcpads.length hlen]
      apply link_inert_self _ _ k _ (new_src_pad s { state := UNCONFIGURED, caps := none })
      · rw [pass_other k link_ok _ _ hnot]
        exact hp
      · exact Or.inl rfl
    rw [hrun]
    have hq := pass_other k link_ok s.srcpads.length _ hnot
      (with_new_src_pad s { state := UNCONFIGURED, caps := none })
    rw [hp] at hq
    refine ⟨?_, ?_, rfl⟩
    · simp [src_state, hq, new_src_pad]
    · simp [src_target, hq, new_src_pad]
  · -- downstream peer, link succeeds
    intro hok
    obtain ⟨t, ht, htl, _⟩ := hI.sink_ok k sink hk
    obtain ⟨c, hc⟩ : ∃ c, s.children[t]? = some c :=
      ⟨s.children[t], List.getElem?_eq_getElem htl⟩
    -- the connector once the downstream peer is there
    have hI2 := wf_set_peer _ hI1 s.srcpads.length true
    have hs2 : set_peer (with_new_src_pad s { state := UNCONFIGURED, caps := none })
          s.srcpads.length true
        = { with_new_src_pad s { state := UNCONFIGURED, caps := none } with
            srcpads := (with_new_src_pad s { state := UNCONFIGURED, caps := none }).srcpads.set
              s.srcpads.length
              { new_src_pad s { state := UNCONFIGURED, caps := none } with peer := true } } := by
      simp [set_peer, hp]
    rw [hs2] at hI2
    -- the pass over the pads that existed before
    have hI3 := pass_wf k link_ok (List.range s.srcpads.length) _ hI2
    have hsink3 := pass_sinkpads k link_ok (List.range s.srcpads.length)
      { with_new_src_pad s { state := UNCONFIGURED, caps := none } with
            srcpads := (with_new_src_pad s { state := UNCONFIGURED, caps := none }).srcpads.set
              s.srcpads.length
              { new_src_pad s { state := UNCONFIGURED, caps := none } with peer := true } }
    have hpad3 := pass_other k link_ok s.srcpads.length _ hnot
      { with_new_src_pad s { state := UNCONFIGURED, caps := none } with
            srcpads := (with_new_src_pad s { state := UNCONFIGURED, caps := none }).srcpads.set
              s.srcpads.length
              { new_src_pad s { state := UNCONFIGURED, caps := none } with peer := true } }
    obtain ⟨c3, hc3, hle⟩ := pass_count_mono k link_ok t c (List.range s.srcpads.length)
      { with_new_src_pad s { state := UNCONFIGURED, caps := none } with
            srcpads := (with_new_src_pad s { state := UNCONFIGURED, caps := none }).srcpads.set
              s.srcpads.length
              { new_src_pad s { state := UNCONFIGURED, caps := none } with peer := true } } hc
    have hrun : run (with_new_src_pad s { state := UNCONFIGURED, caps := none })
          [Call.peer_link s.srcpads.length true,
           Call.sink_event k (GstEvent.caps (some F)) link_ok]
        = kms_agnostic_bin3_sink_caps_probe
            (set_peer (with_new_src_pad s { state := UNCONFIGURED, caps := none })
              s.srcpads.length true) k (GstEvent.caps (some F)) link_ok := rfl
    rw [hrun, hs2, probe_last _ k F link_ok s.srcpads.length (by simp [with_new_src_pad]), hok]
    generalize hS3 : (List.range s.srcpads.length).foldl
      (fun a j => link_pending_src_pads a j k (link_ok j))
      { with_new_src_pad s { state := UNCONFIGURED, caps := none } with
            srcpads := (with_new_src_pad s { state := UNCONFIGURED, caps := none }).srcpads.set
              s.srcpads.length
              { new_src_pad s { state := UNCONFIGURED, caps := none } with peer := true } }
      = s3 at hI3 hsink3 hpad3 hc3
    have hk3 : s3.sinkpads[k]? = some sink := by
      rw [hsink3]
      exact hk
    have hp3 : s3.srcpads[s.srcpads.length]?
        = some { new_src_pad s { state := UNCONFIGURED, caps := none } with peer := true } := by
      rw [hpad3]
      simp [with_new_src_pad]
    have hl3 : s.srcpads.length < s3.srcpads.length := (List.getElem?_eq_some_iff.1 hp3).1
    have ht3 : t < s3.children.length := (List.getElem?_eq_some_iff.1 hc3).1
    rw [link_success s3 s.srcpads.length k sink _ { state := UNCONFIGURED, caps := none } t c3
      hk3 hp3 rfl rfl rfl ht hc3]
    refine ⟨t, c3.pad_count, ht, ?_, ?_, ?_, ?_⟩
    · simp [src_state, List.getElem?_set, hl3]
    · simp [src_target, List.getElem?_set, hl3]
    · rw [outputs_set s3 t _ _ _ ht3]
      simp
    · intro hmem
      have hmem1 : c3.pad_count ∈ outputs s t := hmem
      obtain ⟨c0, hc0, hin⟩ := mem_outputs_lt s t _ hmem1
      rw [hc] at hc0
      cases hc0
      have := hI.fresh t c hc _ hin
      omega

theorem C5_unconfigured_follows_peer_witness :
    ∃ t p,
      src_target
        (run (kms_agnostic_bin3_create_src_pad_without_caps
            (run kms_agnostic_bin3_init [Call.request_new_pad PadTemplate.sink none none])).1
          [Call.peer_link 0 true,
           Call.sink_event 0 (GstEvent.caps (some 7)) (fun _ => true)]) 0
        = some { element := t, pad := p } := by
  obtain ⟨t, p, _, _, h, _⟩ :=
    (C5_unconfigured_follows_peer
      (run kms_agnostic_bin3_init [Call.request_new_pad PadTemplate.sink none none])
      ⟨[Call.request_new_pad PadTemplate.sink none none], rfl⟩ 0
      { name := "sink_0", active := false, target := some 0 } (by decide) 7
      (fun _ => true)).2.2 rfl
  exact ⟨t, p, h⟩

/-- C6: LINKED is terminal.  Once source pad `i` is LINKED, after any sequence
of calls (caps arriving on any sink pad, further pad requests, releases, peers
coming and going) it is still LINKED with the same target and the same declared
caps; and re-evaluating a LINKED pad changes nothing in the connector, so no
request pad is asked of any child. -/
theorem C6_linked_is_terminal (s : KmsAgnosticBin3) (i : Nat)
    (h : src_state s i = some LINKED) (calls : List Call) :
    src_state (run s calls) i = some LINKED ∧
    src_target (run s calls) i = src_target s i ∧
    src_caps (run s calls) i = src_caps s i ∧
    (∀ (s1 : KmsAgnosticBin3) (k : Nat) (ok : Bool),
      src_state s1 i = some LINKED → link_pending_src_pads s1 i k ok = s1) := by
  obtain ⟨p, d, hp, hd, hst⟩ := src_state_some s i _ h
  obtain ⟨q, hq, hqd, hqt, _⟩ := run_settled calls s i p d hp hd (by simp [hst])
  refine ⟨?_, ?_, ?_, ?_⟩
  · simp [src_state, hq, hqd, hst]
  · simp [src_target, hq, hqt, hp]
  · simp [src_caps, hq, hqd, hp, hd]
  · intro s1 k ok h1
    obtain ⟨p1, d1, h2, h3, h4⟩ := src_state_some s1 i _ h1
    exact link_inert_self s1 i k ok p1 h2 (Or.inr ⟨d1, h3, by simp [h4]⟩)

theorem C6_linked_is_terminal_witness :
    src_state (run kms_agnostic_bin3_init scenario_A) 0 = some LINKED ∧
    src_state (run (run kms_agnostic_bin3_init scenario_A) after_linked) 0 = some LINKED ∧
    src_target (run (run kms_agnostic_bin3_init scenario_A) after_linked) 0
      = some { element := 0, pad := 0 } :=
  ⟨by decide,
   (C6_linked_is_terminal (run kms_agnostic_bin3_init scenario_A) 0 (by decide)
      after_linked).1,
   ((C6_linked_is_terminal (run kms_agnostic_bin3_init scenario_A) 0 (by decide)
      after_linked).2.1).trans (by decide)⟩

/-- C7: WAITING and CONFIGURED are log-only.  On a reachable connector, a
source pad `i` that is WAITING or CONFIGURED has no target; after any sequence
of calls (caps arriving on any sink pad included) its state is the same and it
still has no target; and re-evaluating such a pad changes nothing in the
connector, so no request pad is asked of any child for it. -/
theorem C7_waiting_configured_log_only (s : KmsAgnosticBin3) (hs : Reachable s) (i : Nat)
    (st : KmsSrcPadState) (hst : st = WAITING ∨ st = CONFIGURED)
    (h : src_state s i = some st) (calls : List Call) :
    src_target s i = none ∧
    src_state (run s calls) i = some st ∧
    src_target (run s calls) i = none ∧
    (∀ (s1 : KmsAgnosticBin3) (k : Nat) (ok : Bool),
      src_state s1 i = some st → link_pending_src_pads s1 i k ok = s1) := by
  have hne : st ≠ UNCONFIGURED := by
    rcases hst with h1 | h1 <;> simp [h1]
  have hnl : st ≠ LINKED := by
    rcases hst with h1 | h1 <;> simp [h1]
  obtain ⟨p, d, hp, hd, hds⟩ := src_state_some s i _ h
  have htar : p.target = none := by
    obtain ⟨d1, h1, h2, _⟩ := (wf_reachable s hs).src_ok i p hp
    rw [hd] at h1
    cases h1
    cases hta : p.target with
    | none => rfl
    | some x =>
      have : d.state = LINKED := h2.1 (by simp [hta])
      rw [hds] at this
      exact absurd this hnl
  obtain ⟨q, hq, hqd, hqt, _⟩ := run_settled calls s i p d hp hd (by rw [hds]; exact hne)
  refine ⟨?_, ?_, ?_, ?_⟩
  · simp [src_target, hp, htar]
  · simp [src_state, hq, hqd, hds]
  · simp [src_target, hq, hqt, htar]
  · intro s1 k ok h1
    obtain ⟨p1, d1, h2, h3, h4⟩ := src_state_some s1 i _ h1
    exact link_inert_self s1 i k ok p1 h2 (Or.inr ⟨d1, h3, by rw [h4]; exact hne⟩)

theorem C7_waiting_configured_log_only_witness :
    src_state (run kms_agnostic_bin3_init scenario_C) 0 = some WAITING ∧
    src_state (run (run kms_agnostic_bin3_init scenario_C) after_linked) 0 = some WAITING ∧
    src_target (run (run kms_agnostic_bin3_init scenario_C) after_linked) 0 = none :=
  ⟨by decide,
   (C7_waiting_configured_log_only (run kms_agnostic_bin3_init scenario_C)
      ⟨scenario_C, rfl⟩ 0 WAITING (Or.inl rfl) (by decide) after_linked).2.1,
   (C7_waiting_configured_log_only (run kms_agnostic_bin3_init scenario_C)
      ⟨scenario_C, rfl⟩ 0 WAITING (Or.inl rfl) (by decide) after_linked).2.2.1⟩

/-- C8: a failed target link is undone.  On a reachable connector, let source
pad `i` be UNCONFIGURED with a downstream peer and let caps arrive on sink pad
`k`.  Re-evaluation asks the child behind the sink pad for a request pad; when
linking it as target fails, every source pad is exactly as before (state and
target of pad `i` included), the request pad has been given back so that every
child has the request pads it had before, and a second re-evaluation whose link
succeeds makes the pad LINKED. -/
theorem C8_failed_link_is_undone (s : KmsAgnosticBin3) (hs : Reachable s) (i k : Nat)
    (sink : SinkGhostPad) (pad : SrcGhostPad) (hk : s.sinkpads[k]? = some sink)
    (hp : s.srcpads[i]? = some pad) (hpe : pad.peer = true)
    (hst : src_state s i = some UNCONFIGURED) :
    ∃ t e, sink.target = some t ∧ s.children[t]? = some e ∧
      (gst_element_get_request_pad s t).2 = some { element := t, pad := e.pad_count } ∧
      e.pad_count ∈ outputs (gst_element_get_request_pad s t).1 t ∧
      e.pad_count ∉ outputs s t ∧
      (link_pending_src_pads s i k false).srcpads = s.srcpads ∧
      src_state (link_pending_src_pads s i k false) i = some UNCONFIGURED ∧
      src_target (link_pending_src_pads s i k false) i = src_target s i ∧
      (∀ x, outputs (link_pending_src_pads s i k false) x = outputs s x) ∧
      (link_pending_src_pads s i k false).sinkpads = s.sinkpads ∧
      (link_pending_src_pads s i k false).agnosticbins = s.agnosticbins ∧
      src_state (link_pending_src_pads (link_pending_src_pads s i k false) i k true) i
        = some LINKED := by
  have hI := wf_reachable s hs
  obtain ⟨p, d, hp1, hd, hds⟩ := src_state_some s i _ hst
  rw [hp] at hp1
  cases hp1
  obtain ⟨t, ht, htl, _⟩ := hI.sink_ok k sink hk
  obtain ⟨e, he⟩ : ∃ e, s.children[t]? = some e :=
    ⟨s.children[t], List.getElem?_eq_getElem htl⟩
  have hil : i < s.srcpads.length := (List.getElem?_eq_some_iff.1 hp).1
  have hfail := link_failure_wf s hI i k sink pad d t e hk hp hpe hd hds ht he
  have hout : ∀ x, outputs
      { s with children := s.children.set t { e with pad_count := e.pad_count + 1 } } x
        = outputs s x := by
    intro x
    rw [outputs_set s t _ x s.srcpads htl]
    by_cases hx : t = x
    · subst hx
      simp [outputs, he]
    · simp [hx]
  refine ⟨t, e, ht, he, ?_, ?_, ?_, ?_, ?_, ?_, ?_, ?_, ?_, ?_⟩
  · simp [gst_element_get_request_pad, he]
  · simp [gst_element_get_request_pad, he, outputs, htl]
  · intro hmem
    have h1 : e.pad_count ∈ e.srcpads := by simpa [outputs, he] using hmem
    exact absurd (hI.fresh t e he _ h1) (lt_irrefl _)
  · rw [hfail]
  · rw [hfail]
    exact hst
  · rw [hfail]
    rfl
  · rw [hfail]
    exact hout
  · rw [hfail]
  · rw [hfail]
  · rw [hfail]
    have h2 := link_success
      { s with children := s.children.set t { e with pad_count := e.pad_count + 1 } }
      i k sink pad d t { e with pad_count := e.pad_count + 1 } hk hp hpe hd
      hds ht (by simp [List.getElem?_set, htl])
    rw [h2]
    simp [src_state, List.getElem?_set, hil]

theorem C8_failed_link_is_undone_witness :
    ∃ (t : Nat) (e : AgnosticBin),
      (run kms_agnostic_bin3_init before_caps).children[t]? = some e ∧
      (link_pending_src_pads (run kms_agnostic_bin3_init before_caps) 0 0 false).srcpads
        = (run kms_agnostic_bin3_init before_caps).srcpads ∧
      (∀ x, outputs (link_pending_src_pads (run kms_agnostic_bin3_init before_caps) 0 0 false) x
        = outputs (run kms_agnostic_bin3_init before_caps) x) := by
  obtain ⟨t, e, _, he, _, _, _, h1, _, _, h2, _⟩ :=
    C8_failed_link_is_undone (run kms_agnostic_bin3_init before_caps) ⟨before_caps, rfl⟩ 0 0
      { name := "sink_0", active := false, target := some 0 }
      { name := "src_0", active := false, target := none, peer := true,
        data := some { state := UNCONFIGURED, caps := none } }
      (by decide) (by decide) rfl (by decide)
  exact ⟨t, e, he, h1, h2⟩

/-- C9: on a reachable connector every source pad carries its data and has a
target exactly when its state is LINKED; the target is then a live request pad
of a child that is registered in `agnosticbins` and sits behind a sink pad of
the connector, and no other source pad has that target.  Moreover a pad that
re-evaluation turns LINKED on caps arriving at sink pad `k` gets a request pad
of the child behind that very sink pad. -/
theorem C9_target_iff_linked (s : KmsAgnosticBin3) (hs : Reachable s) (i : Nat)
    (pad : SrcGhostPad) (hp : s.srcpads[i]? = some pad) :
    ∃ d, pad.data = some d ∧
      (pad.target.isSome = true ↔ d.state = LINKED) ∧
      (∀ t, pad.target = some t →
        t.element ∈ s.agnosticbins ∧ t.pad ∈ outputs s t.element ∧
        (∃ (k : Nat) (sink : SinkGhostPad),
          s.sinkpads[k]? = some sink ∧ sink.target = some t.element) ∧
        (∀ (j : Nat) (pj : SrcGhostPad),
          j ≠ i → s.srcpads[j]? = some pj → pj.target ≠ some t)) ∧
      (∀ (k : Nat) (ok : Bool), d.state ≠ LINKED →
        src_state (link_pending_src_pads s i k ok) i = some LINKED →
        ∃ (sink : SinkGhostPad) (t p : Nat), s.sinkpads[k]? = some sink ∧
          sink.target = some t ∧
          t ∈ s.agnosticbins ∧
          src_target (link_pending_src_pads s i k ok) i = some { element := t, pad := p } ∧
          p ∈ outputs (link_pending_src_pads s i k ok) t ∧ p ∉ outputs s t) := by
  have hI := wf_reachable s hs
  obtain ⟨d, hd, hiff, htar⟩ := hI.src_ok i pad hp
  have hil : i < s.srcpads.length := (List.getElem?_eq_some_iff.1 hp).1
  refine ⟨d, hd, hiff, ?_, ?_⟩
  · intro t ht
    obtain ⟨a, b, c⟩ := htar t ht
    refine ⟨a, b, c, ?_⟩
    intro j pj hji hj
    exact hI.uniq i j pad pj t (fun h => hji h.symm) hp hj ht
  · intro k ok hnl hlinked
    rcases link_cases s i k ok with h | ⟨sink, pad1, d1, t, hk, hp1, hpe, hd1, hs1, ht⟩
    · rw [h] at hlinked
      simp [src_state, hp, hd] at hlinked
      exact absurd hlinked hnl
    · rw [hp] at hp1
      cases hp1
      rw [hd] at hd1
      cases hd1
      obtain ⟨t0, ht0, htl, hreg⟩ := hI.sink_ok k sink hk
      rw [ht] at ht0
      cases ht0
      obtain ⟨e, he⟩ : ∃ e, s.children[t]? = some e :=
        ⟨s.children[t], List.getElem?_eq_getElem htl⟩
      cases ok
      · rw [link_failure_wf s hI i k sink pad d t e hk hp hpe hd hs1 ht he] at hlinked
        simp [src_state, hp, hd, hs1] at hlinked
      · rw [link_success s i k sink pad d t e hk hp hpe hd hs1 ht he]
        refine ⟨sink, t, e.pad_count, hk, ht, hreg, ?_, ?_, ?_⟩
        · simp [src_target, List.getElem?_set, hil]
        · rw [outputs_set s t _ _ _ htl]
          simp
        · intro hmem
          have h1 : e.pad_count ∈ e.srcpads := by simpa [outputs, he] using hmem
          exact absurd (hI.fresh t e he _ h1) (lt_irrefl _)

theorem C9_target_iff_linked_witness :
    0 ∈ (run kms_agnostic_bin3_init scenario_A).agnosticbins ∧
    0 ∈ outputs (run kms_agnostic_bin3_init scenario_A) 0 := by
  obtain ⟨d, _, _, h3, _⟩ :=
    C9_target_iff_linked (run kms_agnostic_bin3_init scenario_A) ⟨scenario_A, rfl⟩ 0
      { name := "src_0", active := false, target := some { element := 0, pad := 0 },
        peer := true, data := some { state := KmsSrcPadState.LINKED, caps := none } }
      (by decide)
  obtain ⟨a, b, _⟩ := h3 { element := 0, pad := 0 } rfl
  exact ⟨a, b⟩

/-- C10: a source pad without downstream peer is skipped.  Whatever its state,
re-evaluating it changes nothing in the connector (no request pad is asked of
any child), and a caps event on sink pad `k` is exactly the re-evaluation, in
order, of all the other source pads; the pad itself is unchanged afterwards. -/
theorem C10_pad_without_peer_is_skipped (s : KmsAgnosticBin3) (i : Nat) (pad : SrcGhostPad)
    (hp : s.srcpads[i]? = some pad) (hpe : pad.peer = false) (k : Nat) (F : GstCaps)
    (link_ok : Nat → Bool) :
    (∀ ok : Bool, link_pending_src_pads s i k ok = s) ∧
    kms_agnostic_bin3_sink_caps_probe s k (GstEvent.caps (some F)) link_ok =
      ((List.range s.srcpads.length).filter (fun j => decide (j ≠ i))).foldl
        (fun a j => link_pending_src_pads a j k (link_ok j)) s ∧
    (kms_agnostic_bin3_sink_caps_probe s k (GstEvent.caps (some F)) link_ok).srcpads[i]?
      = some pad := by
  have hin : Inert pad := Or.inl hpe
  refine ⟨fun ok => link_inert_self s i k ok pad hp hin, ?_, ?_⟩
  · unfold kms_agnostic_bin3_sink_caps_probe kms_element_for_each_src_pad
    exact foldl_skip (fun a => a.srcpads[i]? = some pad) _ i
      (fun a j ha => link_inert a i j k (link_ok j) pad ha hin)
      (fun a ha => link_inert_self a i k (link_ok i) pad ha hin) _ s hp
  · exact pass_inert k link_ok i pad hin _ s hp

theorem C10_pad_without_peer_is_skipped_witness :
    (kms_agnostic_bin3_sink_caps_probe (run kms_agnostic_bin3_init two_pads) 0
        (GstEvent.caps (some 7)) (fun _ => true)).srcpads[0]?
      = some { name := "src_0", active := false, target := none, peer := false,
               data := some { state := UNCONFIGURED, caps := none } } ∧
    src_state
      (kms_agnostic_bin3_sink_caps_probe (run kms_agnostic_bin3_init two_pads) 0
        (GstEvent.caps (some 7)) (fun _ => true)) 1 = some LINKED :=
  ⟨(C10_pad_without_peer_is_skipped (run kms_agnostic_bin3_init two_pads) 0
      { name := "src_0", active := false, target := none, peer := false,
        data := some { state := UNCONFIGURED, caps := none } }
      (by decide) rfl 0 7 (fun _ => true)).2.2,
   by decide⟩

end Kms
